import Mathlib

/-! bc_cp201t: thermistor channel driver.

A shallow embedding of `bcl/src/bc_cp201t.c`.  Each driver function is a pure
function on the channel record that also returns the list of calls it makes to
its collaborators (scheduler, ADC, sensor module, user callback), in program
order.  Machine integers are `Nat`/`Int` with explicit wrap-around; `float` and
`double` values are the rationals they denote, and every floating-point operation
rounds its exact result to the format.  A run that leaves defined C behaviour (a call
through a null function pointer, an out-of-range conversion or index) is `none`.
-/

namespace CP201T

/-! ## Types declared in headers outside this file -/

/-- Modelled from the spec: the two sensor-module channels (A, B) of `bc_module_sensor.h`. -/
inductive bc_module_sensor_channel_t where
  | BC_MODULE_SENSOR_CHANNEL_A
  | BC_MODULE_SENSOR_CHANNEL_B
deriving DecidableEq, Repr

/-- Modelled from the spec: pull modes of `bc_module_sensor.h`, "at least none and weak pull-up". -/
inductive bc_module_sensor_pull_t where
  | BC_MODULE_SENSOR_PULL_NONE
  | BC_MODULE_SENSOR_PULL_UP_4K7
deriving DecidableEq, Repr

/-- Modelled from the spec: the ADC channels of `bc_adc.h` the two records are bound to. -/
inductive bc_adc_channel_t where
  | BC_ADC_CHANNEL_A4
  | BC_ADC_CHANNEL_A5
deriving DecidableEq, Repr

/-- Modelled from the spec: the ADC result format of `bc_adc.h` used by `bc_cp201t_init`. -/
inductive bc_adc_format_t where
  | BC_ADC_FORMAT_16_BIT
deriving DecidableEq, Repr

/-- Modelled from the spec: the completion tag of `bc_adc.h`, "success or error". -/
inductive bc_adc_event_t where
  | BC_ADC_EVENT_DONE
  | BC_ADC_EVENT_ERROR
deriving DecidableEq, Repr

/-- Modelled from the spec: the two event tags of `bc_cp201t.h` delivered to the callback. -/
inductive bc_cp201t_event_t where
  | BC_CP201T_EVENT_ERROR
  | BC_CP201T_EVENT_UPDATE
deriving DecidableEq, Repr

/-- Modelled from the spec: the scheduler's sentinel deadline "never" of `bc_tick.h`
(the largest 64-bit tick). -/
def BC_TICK_INFINITY : Nat := 0xffffffffffffffff

/-- The two task bodies this file registers with the scheduler. -/
inductive TaskFn where
  | task_interval
  | task_measure
deriving DecidableEq, Repr

/-! ## Channel record -/

/-- The `bc_cp201t_t` record.  `event_handler` is a function pointer (`none` is NULL,
`some f` the address `f`), `event_param` an untyped pointer held as an address,
`thermistor_data` an `int32_t`, `temperature` a `float` held as its bit pattern (no
function of the driver reads or writes it), `update_interval` a `bc_tick_t`. -/
structure bc_cp201t_t where
  channel : bc_module_sensor_channel_t
  channel_adc : bc_adc_channel_t
  task_id_interval : Nat
  task_id_measure : Nat
  event_handler : Option Nat
  event_param : Nat
  thermistor_data : Int
  temperature : Nat
  update_interval : Nat
  initialized : Bool
  measurement_active : Bool
deriving DecidableEq, Repr

/-- The static array `_bc_cp201t[2]`, one record per channel. -/
structure Instances where
  a : bc_cp201t_t
  b : bc_cp201t_t
deriving DecidableEq, Repr

/-- The element `_bc_cp201t[channel]`. -/
def Instances.get (g : Instances) : bc_module_sensor_channel_t → bc_cp201t_t
  | .BC_MODULE_SENSOR_CHANNEL_A => g.a
  | .BC_MODULE_SENSOR_CHANNEL_B => g.b

/-- Assignment to the element `_bc_cp201t[channel]`. -/
def Instances.set (g : Instances) (channel : bc_module_sensor_channel_t) (r : bc_cp201t_t) :
    Instances :=
  match channel with
  | .BC_MODULE_SENSOR_CHANNEL_A => { g with a := r }
  | .BC_MODULE_SENSOR_CHANNEL_B => { g with b := r }

/-- The initializer of `_bc_cp201t`: the designated fields, every other field zero. -/
def _bc_cp201t : Instances where
  a := { channel := .BC_MODULE_SENSOR_CHANNEL_A, channel_adc := .BC_ADC_CHANNEL_A4,
         task_id_interval := 0, task_id_measure := 0, event_handler := none, event_param := 0,
         thermistor_data := 0, temperature := 0, update_interval := 0,
         initialized := false, measurement_active := false }
  b := { channel := .BC_MODULE_SENSOR_CHANNEL_B, channel_adc := .BC_ADC_CHANNEL_A5,
         task_id_interval := 0, task_id_measure := 0, event_handler := none, event_param := 0,
         thermistor_data := 0, temperature := 0, update_interval := 0,
         initialized := false, measurement_active := false }

/-! ## Calls to collaborators -/

/-- One call made by the driver to a collaborator, with its arguments.  The record
pointer passed as context is named by the record's channel. -/
inductive Effect where
  | module_sensor_init
  | adc_init (channel : bc_adc_channel_t) (format : bc_adc_format_t)
  | adc_set_event_handler (channel : bc_adc_channel_t) (param : bc_module_sensor_channel_t)
  | scheduler_register (task : TaskFn) (param : bc_module_sensor_channel_t) (tick : Nat)
  | scheduler_plan_now (task_id : Nat)
  | scheduler_plan_absolute (task_id : Nat) (tick : Nat)
  | scheduler_plan_relative (task_id : Nat) (tick : Nat)
  | scheduler_plan_current_relative (tick : Nat)
  | module_sensor_set_pull (channel : bc_module_sensor_channel_t) (pull : bc_module_sensor_pull_t)
  | adc_async_read (channel : bc_adc_channel_t)
  | adc_get_result (channel : bc_adc_channel_t)
  | event_handler (fn : Nat) (channel : bc_module_sensor_channel_t) (event : bc_cp201t_event_t)
      (param : Nat)
deriving DecidableEq, Repr

/-! ## Driver functions -/

/-- `bc_cp201t_init`.  `sensor_init_ok` is what `bc_module_sensor_init()` returns when
called, `id_interval` and `id_measure` what the two `bc_scheduler_register` calls return. -/
def bc_cp201t_init (g : Instances) (channel : bc_module_sensor_channel_t)
    (sensor_init_ok : Bool) (id_interval id_measure : Nat) : Bool × Instances × List Effect :=
  let cp201t := g.get channel
  if !cp201t.initialized then
    if !sensor_init_ok then
      (false, g, [.module_sensor_init])
    else
      let cp201t := { cp201t with task_id_interval := id_interval }
      let cp201t := { cp201t with task_id_measure := id_measure }
      let cp201t := { cp201t with initialized := true }
      (true, g.set channel cp201t,
        [.module_sensor_init,
         .adc_init cp201t.channel_adc .BC_ADC_FORMAT_16_BIT,
         .adc_set_event_handler cp201t.channel_adc channel,
         .scheduler_register .task_interval channel BC_TICK_INFINITY,
         .scheduler_register .task_measure channel BC_TICK_INFINITY])
  else
    (true, g, [])

/-- `bc_cp201t_set_event_handler`. -/
def bc_cp201t_set_event_handler (g : Instances) (channel : bc_module_sensor_channel_t)
    (event_handler : Option Nat) (event_param : Nat) : Instances :=
  let cp201t := g.get channel
  let cp201t := { cp201t with event_handler := event_handler }
  let cp201t := { cp201t with event_param := event_param }
  g.set channel cp201t

/-- `bc_cp201t_set_update_interval`. -/
def bc_cp201t_set_update_interval (g : Instances) (channel : bc_module_sensor_channel_t)
    (interval : Nat) : Instances × List Effect :=
  let cp201t := g.get channel
  let cp201t := { cp201t with update_interval := interval }
  if cp201t.update_interval = BC_TICK_INFINITY then
    (g.set channel cp201t, [.scheduler_plan_absolute cp201t.task_id_interval BC_TICK_INFINITY])
  else
    (g.set channel cp201t, [.scheduler_plan_relative cp201t.task_id_interval cp201t.update_interval])

/-- `bc_cp201t_measure`: return value, record afterwards, calls made. -/
def bc_cp201t_measure (self : bc_cp201t_t) : Bool × bc_cp201t_t × List Effect :=
  if self.measurement_active then
    (false, self, [])
  else
    let self := { self with measurement_active := true }
    (true, self, [.scheduler_plan_now self.task_id_measure])

/-- `_bc_cp201t_task_interval`: the result of `bc_cp201t_measure` is discarded. -/
def _bc_cp201t_task_interval (cp201t : bc_cp201t_t) : bc_cp201t_t × List Effect :=
  let m := bc_cp201t_measure cp201t
  let cp201t := m.2.1
  (cp201t, m.2.2 ++ [.scheduler_plan_current_relative cp201t.update_interval])

/-- `_bc_cp201t_task_measure`: the record is only read. -/
def _bc_cp201t_task_measure (cp201t : bc_cp201t_t) : bc_cp201t_t × List Effect :=
  (cp201t,
    [.module_sensor_set_pull cp201t.channel .BC_MODULE_SENSOR_PULL_UP_4K7,
     .adc_async_read cp201t.channel_adc])

/-- The call `cp201t->event_handler(channel, event, event_param)` through the stored
function pointer: undefined (`none`) when the pointer is NULL.  The callback is application
code: the call is recorded with its arguments, what the callback does is not part of the
driver. -/
def call_event_handler (cp201t : bc_cp201t_t) (event : bc_cp201t_event_t) : Option (List Effect) :=
  match cp201t.event_handler with
  | none => none
  | some fn => some [.event_handler fn cp201t.channel event cp201t.event_param]

/-- `_bc_cp201t_adc_event_handler`.  `result` is the value `bc_adc_get_result` writes to
`thermistor_data` when it is called.  The first argument of the C function (the ADC
channel) is discarded by the code and is left out. -/
def _bc_cp201t_adc_event_handler (cp201t : bc_cp201t_t) (event : bc_adc_event_t) (result : Int) :
    Option (bc_cp201t_t × List Effect) :=
  let cp201t := { cp201t with measurement_active := false }
  if event = .BC_ADC_EVENT_DONE then
    let pull : List Effect := [.module_sensor_set_pull cp201t.channel .BC_MODULE_SENSOR_PULL_NONE]
    let fetch : List Effect := [.adc_get_result cp201t.channel_adc]
    let cp201t := { cp201t with thermistor_data := result }
    match call_event_handler cp201t .BC_CP201T_EVENT_UPDATE with
    | none => none
    | some cb => some (cp201t, pull ++ fetch ++ cb)
  else
    match call_event_handler cp201t .BC_CP201T_EVENT_ERROR with
    | none => none
    | some cb => some (cp201t, cb)

/-! ## Conversion table -/

/-- The table `_thermistor_conversion_table` (`uint16_t`, 1024 entries). -/
def _thermistor_conversion_table : List Nat :=
  [
   0x7FFF, 0x7FFF, 0x7FFF, 0x7FFF, 0x7FFF, 0x7FFF, 0x7FFF, 0x7FFF,
   0x7FFF, 0x7FFF, 0x7FFF, 0x7FFF, 0x7FFF, 0x7FFF, 0x7FFF, 0x7FFF,
   0x7FFF, 0x7FFF, 0x7FFF, 0x7FFF, 0x7FFF, 0x7FFF, 0x7FFF, 0xFE70,
   0xFE7A, 0xFE7E, 0xFE84, 0xFE8E, 0xFE93, 0xFE98, 0xFEA2, 0xFEA8,
   0xFEAC, 0xFEB1, 0xFEB6, 0xFEBA, 0xFEC0, 0xFECA, 0xFED0, 0xFED4,
   0xFED9, 0xFEDE, 0xFEE2, 0xFEE5, 0xFEE8, 0xFEED, 0xFEF2, 0xFEF7,
   0xFEFC, 0xFEFF, 0xFF02, 0xFF06, 0xFF0B, 0xFF10, 0xFF14, 0xFF16,
   0xFF1A, 0xFF1F, 0xFF24, 0xFF28, 0xFF2B, 0xFF2E, 0xFF31, 0xFF35,
   0xFF38, 0xFF3B, 0xFF3F, 0xFF42, 0xFF45, 0xFF49, 0xFF4C, 0xFF50,
   0xFF53, 0xFF56, 0xFF59, 0xFF5B, 0xFF5D, 0xFF60, 0xFF63, 0xFF67,
   0xFF6A, 0xFF6D, 0xFF6F, 0xFF71, 0xFF74, 0xFF77, 0xFF7B, 0xFF7E,
   0xFF81, 0xFF83, 0xFF86, 0xFF88, 0xFF8A, 0xFF8D, 0xFF8F, 0xFF92,
   0xFF95, 0xFF97, 0xFF9A, 0xFF9C, 0xFF9E, 0xFFA1, 0xFFA3, 0xFFA6,
   0xFFA9, 0xFFAB, 0xFFAE, 0xFFB0, 0xFFB2, 0xFFB4, 0xFFB6, 0xFFB8,
   0xFFBA, 0xFFBC, 0xFFBF, 0xFFC2, 0xFFC4, 0xFFC6, 0xFFC8, 0xFFCA,
   0xFFCC, 0xFFCE, 0xFFD0, 0xFFD3, 0xFFD6, 0xFFD8, 0xFFDA, 0xFFDC,
   0xFFDE, 0xFFE0, 0xFFE2, 0xFFE4, 0xFFE6, 0xFFE8, 0xFFEA, 0xFFEC,
   0xFFEE, 0xFFF0, 0xFFF2, 0xFFF4, 0xFFF6, 0xFFF8, 0xFFFA, 0xFFFC,
   0xFFFE, 0x0000, 0x0002, 0x0004, 0x0006, 0x0008, 0x000A, 0x000C,
   0x000D, 0x000F, 0x0011, 0x0012, 0x0014, 0x0016, 0x0018, 0x001A,
   0x001C, 0x001E, 0x0020, 0x0022, 0x0023, 0x0025, 0x0026, 0x0028,
   0x002A, 0x002B, 0x002D, 0x002E, 0x0030, 0x0032, 0x0034, 0x0036,
   0x0038, 0x003A, 0x003C, 0x003E, 0x0040, 0x0041, 0x0043, 0x0044,
   0x0046, 0x0048, 0x0049, 0x004B, 0x004D, 0x004E, 0x0050, 0x0052,
   0x0053, 0x0055, 0x0057, 0x0058, 0x005A, 0x005B, 0x005D, 0x005E,
   0x0060, 0x0061, 0x0063, 0x0064, 0x0066, 0x0067, 0x0069, 0x006B,
   0x006C, 0x006E, 0x0070, 0x0071, 0x0073, 0x0075, 0x0076, 0x0078,
   0x007A, 0x007B, 0x007C, 0x007E, 0x007F, 0x0081, 0x0082, 0x0083,
   0x0085, 0x0086, 0x0087, 0x0089, 0x008A, 0x008C, 0x008E, 0x008F,
   0x0091, 0x0093, 0x0094, 0x0096, 0x0098, 0x0099, 0x009A, 0x009C,
   0x009D, 0x009F, 0x00A0, 0x00A1, 0x00A3, 0x00A4, 0x00A6, 0x00A7,
   0x00A9, 0x00AA, 0x00AB, 0x00AD, 0x00AE, 0x00B0, 0x00B1, 0x00B3,
   0x00B4, 0x00B5, 0x00B7, 0x00B8, 0x00BA, 0x00BB, 0x00BD, 0x00BE,
   0x00BF, 0x00C1, 0x00C2, 0x00C4, 0x00C5, 0x00C7, 0x00C8, 0x00C9,
   0x00CB, 0x00CC, 0x00CE, 0x00CF, 0x00D1, 0x00D2, 0x00D3, 0x00D5,
   0x00D6, 0x00D8, 0x00D9, 0x00DB, 0x00DC, 0x00DD, 0x00DF, 0x00E0,
   0x00E2, 0x00E3, 0x00E5, 0x00E6, 0x00E7, 0x00E9, 0x00EA, 0x00EC,
   0x00ED, 0x00EF, 0x00F0, 0x00F1, 0x00F3, 0x00F4, 0x00F5, 0x00F6,
   0x00F7, 0x00F9, 0x00FA, 0x00FB, 0x00FD, 0x00FE, 0x0100, 0x0101,
   0x0103, 0x0104, 0x0105, 0x0107, 0x0108, 0x010A, 0x010B, 0x010D,
   0x010E, 0x010F, 0x0111, 0x0112, 0x0113, 0x0114, 0x0115, 0x0117,
   0x0118, 0x0119, 0x011B, 0x011C, 0x011E, 0x011F, 0x0121, 0x0122,
   0x0123, 0x0125, 0x0126, 0x0128, 0x0129, 0x012B, 0x012C, 0x012D,
   0x012F, 0x0130, 0x0131, 0x0132, 0x0133, 0x0135, 0x0136, 0x0137,
   0x0139, 0x013A, 0x013C, 0x013D, 0x013F, 0x0140, 0x0141, 0x0143,
   0x0144, 0x0145, 0x0146, 0x0147, 0x0149, 0x014A, 0x014B, 0x014D,
   0x014E, 0x0150, 0x0151, 0x0153, 0x0154, 0x0155, 0x0157, 0x0158,
   0x0159, 0x015A, 0x015B, 0x015D, 0x015E, 0x015F, 0x0161, 0x0162,
   0x0164, 0x0165, 0x0167, 0x0168, 0x0169, 0x016B, 0x016C, 0x016E,
   0x016F, 0x0171, 0x0172, 0x0173, 0x0175, 0x0176, 0x0177, 0x0178,
   0x0179, 0x017B, 0x017C, 0x017D, 0x017F, 0x0180, 0x0182, 0x0183,
   0x0185, 0x0186, 0x0187, 0x0189, 0x018A, 0x018C, 0x018D, 0x018F,
   0x0190, 0x0191, 0x0193, 0x0194, 0x0195, 0x0196, 0x0197, 0x0199,
   0x019A, 0x019B, 0x019D, 0x019E, 0x01A0, 0x01A1, 0x01A3, 0x01A4,
   0x01A5, 0x01A7, 0x01A8, 0x01AA, 0x01AB, 0x01AD, 0x01AE, 0x01AF,
   0x01B1, 0x01B2, 0x01B4, 0x01B5, 0x01B7, 0x01B8, 0x01B9, 0x01BB,
   0x01BC, 0x01BE, 0x01BF, 0x01C1, 0x01C2, 0x01C3, 0x01C5, 0x01C6,
   0x01C8, 0x01C9, 0x01CB, 0x01CC, 0x01CD, 0x01CF, 0x01D0, 0x01D2,
   0x01D3, 0x01D5, 0x01D6, 0x01D7, 0x01D9, 0x01DA, 0x01DC, 0x01DD,
   0x01DF, 0x01E0, 0x01E1, 0x01E3, 0x01E4, 0x01E6, 0x01E7, 0x01E9,
   0x01EA, 0x01EB, 0x01ED, 0x01EE, 0x01F0, 0x01F1, 0x01F3, 0x01F4,
   0x01F5, 0x01F7, 0x01F8, 0x01FA, 0x01FB, 0x01FD, 0x01FE, 0x01FF,
   0x0201, 0x0202, 0x0204, 0x0205, 0x0206, 0x0208, 0x020A, 0x020B,
   0x020D, 0x020F, 0x0210, 0x0212, 0x0213, 0x0215, 0x0216, 0x0218,
   0x0219, 0x021A, 0x021C, 0x021E, 0x021F, 0x0221, 0x0223, 0x0224,
   0x0226, 0x0228, 0x0229, 0x022A, 0x022C, 0x022D, 0x022F, 0x0230,
   0x0232, 0x0233, 0x0235, 0x0237, 0x0238, 0x023A, 0x023C, 0x023D,
   0x023F, 0x0241, 0x0242, 0x0244, 0x0246, 0x0247, 0x0249, 0x024B,
   0x024C, 0x024E, 0x0250, 0x0251, 0x0253, 0x0255, 0x0256, 0x0258,
   0x025A, 0x025B, 0x025D, 0x025F, 0x0260, 0x0262, 0x0264, 0x0265,
   0x0267, 0x0269, 0x026A, 0x026C, 0x026E, 0x026F, 0x0271, 0x0272,
   0x0274, 0x0276, 0x0278, 0x027A, 0x027C, 0x027E, 0x0280, 0x0282,
   0x0283, 0x0285, 0x0287, 0x0288, 0x028A, 0x028C, 0x028E, 0x0290,
   0x0292, 0x0294, 0x0296, 0x0297, 0x0299, 0x029B, 0x029C, 0x029E,
   0x02A0, 0x02A2, 0x02A4, 0x02A6, 0x02A8, 0x02AA, 0x02AC, 0x02AE,
   0x02B0, 0x02B2, 0x02B4, 0x02B6, 0x02B8, 0x02BA, 0x02BC, 0x02BE,
   0x02C0, 0x02C2, 0x02C4, 0x02C6, 0x02C8, 0x02CA, 0x02CC, 0x02CE,
   0x02D0, 0x02D2, 0x02D4, 0x02D6, 0x02D8, 0x02DA, 0x02DC, 0x02DE,
   0x02E0, 0x02E2, 0x02E4, 0x02E6, 0x02E9, 0x02EC, 0x02EE, 0x02F0,
   0x02F2, 0x02F4, 0x02F6, 0x02F8, 0x02FA, 0x02FD, 0x0300, 0x0302,
   0x0304, 0x0306, 0x0308, 0x030A, 0x030C, 0x030E, 0x0311, 0x0313,
   0x0316, 0x0319, 0x031B, 0x031E, 0x0320, 0x0322, 0x0325, 0x0327,
   0x032A, 0x032D, 0x032F, 0x0332, 0x0334, 0x0337, 0x0339, 0x033C,
   0x033E, 0x0340, 0x0343, 0x0345, 0x0348, 0x034B, 0x034D, 0x0350,
   0x0352, 0x0354, 0x0357, 0x0359, 0x035C, 0x035F, 0x0363, 0x0366,
   0x0369, 0x036B, 0x036D, 0x0370, 0x0373, 0x0377, 0x037A, 0x037D,
   0x037F, 0x0381, 0x0384, 0x0387, 0x038A, 0x038E, 0x0392, 0x0395,
   0x0398, 0x039B, 0x039D, 0x039F, 0x03A2, 0x03A5, 0x03A9, 0x03AC,
   0x03AF, 0x03B3, 0x03B6, 0x03B9, 0x03BD, 0x03C0, 0x03C3, 0x03C7,
   0x03CA, 0x03CD, 0x03D0, 0x03D4, 0x03D9, 0x03DE, 0x03E2, 0x03E5,
   0x03E8, 0x03EB, 0x03EE, 0x03F2, 0x03F7, 0x03FC, 0x03FF, 0x0402,
   0x0406, 0x040B, 0x0410, 0x0414, 0x0416, 0x041A, 0x041F, 0x0424,
   0x0428, 0x042B, 0x042E, 0x0433, 0x0438, 0x043D, 0x0442, 0x0447,
   0x044C, 0x0451, 0x0456, 0x045B, 0x0460, 0x0465, 0x046A, 0x046F,
   0x0474, 0x0479, 0x047E, 0x0483, 0x0488, 0x048D, 0x0492, 0x0497,
   0x049C, 0x04A0, 0x04A6, 0x04B0, 0x04B7, 0x04BA, 0x04BD, 0x04C4,
   0x04CE, 0x04D4, 0x04D8, 0x04E2, 0x7FFF, 0x7FFF, 0x7FFF, 0x7FFF,
   0x7FFF, 0x7FFF, 0x7FFF, 0x7FFF, 0x7FFF, 0x7FFF, 0x7FFF, 0x7FFF,
   0x7FFF, 0x7FFF, 0x7FFF, 0x7FFF, 0x7FFF, 0x7FFF, 0x7FFF, 0x7FFF,
   0x7FFF, 0x7FFF, 0x7FFF, 0x7FFF, 0x7FFF, 0x7FFF, 0x7FFF, 0x7FFF,
   0x7FFF, 0x7FFF, 0x7FFF, 0x7FFF, 0x7FFF, 0x7FFF, 0x7FFF, 0x7FFF,
   0x7FFF, 0x7FFF, 0x7FFF, 0x7FFF, 0x7FFF, 0x7FFF, 0x7FFF, 0x7FFF,
   0x7FFF, 0x7FFF, 0x7FFF, 0x7FFF, 0x7FFF, 0x7FFF, 0x7FFF, 0x7FFF,
   0x7FFF, 0x7FFF, 0x7FFF, 0x7FFF, 0x7FFF, 0x7FFF, 0x7FFF, 0x7FFF,
   0x7FFF, 0x7FFF, 0x7FFF, 0x7FFF, 0x7FFF, 0x7FFF, 0x7FFF, 0x7FFF,
   0x7FFF, 0x7FFF, 0x7FFF, 0x7FFF, 0x7FFF, 0x7FFF, 0x7FFF, 0x7FFF,
   0x7FFF, 0x7FFF, 0x7FFF, 0x7FFF, 0x7FFF, 0x7FFF, 0x7FFF, 0x7FFF,
   0x7FFF, 0x7FFF, 0x7FFF, 0x7FFF, 0x7FFF, 0x7FFF, 0x7FFF, 0x7FFF,
   0x7FFF, 0x7FFF, 0x7FFF, 0x7FFF, 0x7FFF, 0x7FFF, 0x7FFF, 0x7FFF,
   0x7FFF, 0x7FFF, 0x7FFF, 0x7FFF, 0x7FFF, 0x7FFF, 0x7FFF, 0x7FFF,
   0x7FFF, 0x7FFF, 0x7FFF, 0x7FFF, 0x7FFF, 0x7FFF, 0x7FFF, 0x7FFF,
   0x7FFF, 0x7FFF, 0x7FFF, 0x7FFF, 0x7FFF, 0x7FFF, 0x7FFF, 0x7FFF,
   0x7FFF, 0x7FFF, 0x7FFF, 0x7FFF, 0x7FFF, 0x7FFF, 0x7FFF, 0x7FFF,
   0x7FFF, 0x7FFF, 0x7FFF, 0x7FFF, 0x7FFF, 0x7FFF, 0x7FFF, 0x7FFF,
   0x7FFF, 0x7FFF, 0x7FFF, 0x7FFF, 0x7FFF, 0x7FFF, 0x7FFF, 0x7FFF,
   0x7FFF, 0x7FFF, 0x7FFF, 0x7FFF, 0x7FFF, 0x7FFF, 0x7FFF, 0x7FFF,
   0x7FFF, 0x7FFF, 0x7FFF, 0x7FFF, 0x7FFF, 0x7FFF, 0x7FFF, 0x7FFF,
   0x7FFF, 0x7FFF, 0x7FFF, 0x7FFF, 0x7FFF, 0x7FFF, 0x7FFF, 0x7FFF,
   0x7FFF, 0x7FFF, 0x7FFF, 0x7FFF, 0x7FFF, 0x7FFF, 0x7FFF, 0x7FFF,
   0x7FFF, 0x7FFF, 0x7FFF, 0x7FFF, 0x7FFF, 0x7FFF, 0x7FFF, 0x7FFF,
   0x7FFF, 0x7FFF, 0x7FFF, 0x7FFF, 0x7FFF, 0x7FFF, 0x7FFF, 0x7FFF,
   0x7FFF, 0x7FFF, 0x7FFF, 0x7FFF, 0x7FFF, 0x7FFF, 0x7FFF, 0x7FFF,
   0x7FFF, 0x7FFF, 0x7FFF, 0x7FFF, 0x7FFF, 0x7FFF, 0x7FFF, 0x7FFF,
   0x7FFF, 0x7FFF, 0x7FFF, 0x7FFF, 0x7FFF, 0x7FFF, 0x7FFF, 0x7FFF,
   0x7FFF, 0x7FFF, 0x7FFF, 0x7FFF, 0x7FFF, 0x7FFF, 0x7FFF, 0x7FFF,
   0x7FFF, 0x7FFF, 0x7FFF, 0x7FFF, 0x7FFF, 0x7FFF, 0x7FFF, 0x7FFF,
   0x7FFF, 0x7FFF, 0x7FFF, 0x7FFF, 0x7FFF, 0x7FFF, 0x7FFF, 0x7FFF,
   0x7FFF, 0x7FFF, 0x7FFF, 0x7FFF, 0x7FFF, 0x7FFF, 0x7FFF, 0x7FFF
  ]

/-! ## Floating-point arithmetic

The values of `float` (binary32) and `double` (binary64) objects are held as the
rationals they denote.  Every operation forms the exact result and rounds it to the
format, to nearest with ties to even, subnormal results included.  Infinities and NaN
have no value here: the only place where the driver can produce one from a finite voltage
is the quotient by a zero voltage, which is treated where it occurs, and magnitudes
beyond the largest finite value of a format are kept as they are. -/

/-- Number of binary digits of `n`, counted with at most `k` halvings. -/
def bits : Nat → Nat → Nat
  | 0, _ => 0
  | k + 1, n => if n = 0 then 0 else bits k (n / 2) + 1

/-- Number of binary digits of `n` (0 for 0). -/
def bit_length (n : Nat) : Nat := bits n n

/-- The exponent `e` with `2 ^ e ≤ |x| < 2 ^ (e + 1)`, for `x ≠ 0`. -/
def binade (x : ℚ) : Int :=
  let e : Int := (bit_length x.num.natAbs : Int) - (bit_length x.den : Int)
  if (2 : ℚ) ^ e ≤ |x| then e else e - 1

/-- The integer nearest to `m`, the even one of the two when `m` lies halfway. -/
def round_half_even (m : ℚ) : Int :=
  let f := ⌊m⌋
  if m - f < 1 / 2 then f
  else if 1 / 2 < m - f then f + 1
  else if f % 2 = 0 then f else f + 1

/-- Rounding of `x` to a binary format with `p` significant bits whose smallest positive
value is `2 ^ emin`: the nearest multiple of the unit in the last place of `x`. -/
def to_binary (p : Nat) (emin : Int) (x : ℚ) : ℚ :=
  if x = 0 then 0
  else
    let ulp : ℚ := 2 ^ max (binade x - ((p : Int) - 1)) emin
    round_half_even (x / ulp) * ulp

/-- Rounding to `double`. -/
def to_binary64 (x : ℚ) : ℚ := to_binary 53 (-1074) x

/-- Rounding to `float`. -/
def to_binary32 (x : ℚ) : ℚ := to_binary 24 (-149) x

/-! ## Temperature conversion -/

/-- Conversion of a real value to an integer type: the fractional part is discarded
(truncation toward zero). -/
def truncate (x : ℚ) : Int :=
  if 0 ≤ x then ⌊x⌋ else ⌈x⌉

/-- The `double` value of `data * (3.3 / vdda_voltage)` in the statement
`data *= 3.3 / vdda_voltage;`: `3.3` is a `double` constant, `vdda_voltage` a `float`
(the voltage reported by `bc_adc_get_vdda_voltage`, rounded to `float`), `data` a
`uint16_t`; quotient and product are `double` operations.  For a zero voltage the
quotient is infinite and the product has no finite value (`none`). -/
def scaled_product (data : Nat) (vdda_voltage : ℚ) : Option ℚ :=
  let vdda_voltage := to_binary32 vdda_voltage
  if vdda_voltage = 0 then none
  else some (to_binary64 ((data : ℚ) * to_binary64 (to_binary64 3.3 / vdda_voltage)))

/-- The statement `data *= 3.3 / vdda_voltage;` on a `uint16_t data`: the product is
converted back to `uint16_t` by truncation.  C defines the conversion only when the
truncated value fits the type; otherwise the result is `none`. -/
def rescale (data : Nat) (vdda_voltage : ℚ) : Option Nat :=
  match scaled_product data vdda_voltage with
  | none => none
  | some x =>
    let t := truncate x
    if 0 ≤ t ∧ t ≤ 0xffff then some t.toNat else none

/-- Conversion of a `uint16_t` value to `int16_t` (two's complement). -/
def to_int16 (u : Nat) : Int :=
  if u % 65536 < 32768 then (u % 65536 : Nat) else ((u % 65536 : Nat) : Int) - 65536

/-- The statement `*celsius = temp_code / 10.;`: a `double` quotient stored into a
`float`. -/
def fixed_to_celsius (temp_code : Int) : ℚ :=
  to_binary32 (to_binary64 ((temp_code : ℚ) / 10))

/-- `bc_cp201t_get_temperature_celsius`.  `vdda_voltage` is the value written by
`bc_adc_get_vdda_voltage`, `celsius` the content of the output location before the call;
the result is the return value and the content of the output location afterwards. -/
def bc_cp201t_get_temperature_celsius (g : Instances) (channel : bc_module_sensor_channel_t)
    (vdda_voltage : ℚ) (celsius : ℚ) : Option (Bool × ℚ) :=
  let cp201t := g.get channel
  let data : Nat := (cp201t.thermistor_data % 65536).toNat
  match rescale data vdda_voltage with
  | none => none
  | some data =>
    let data : Nat := (((0xffff : Int) - (data : Int)) % 65536).toNat
    match _thermistor_conversion_table[data >>> 6]? with
    | none => none
    | some entry =>
      let temp_code : Int := to_int16 entry
      if temp_code ≠ 0x7fff then
        some (true, fixed_to_celsius temp_code)
      else
        some (false, celsius)

/-- Conversion of a `double` to `uint16_t` as an implementation performs it: the truncated
value when it fits the type, as C requires.  In every other case (`none` is a product
without finite value) C does not say what is stored; `wrap` is what the implementation
stores there, of which the 16 bits of the type are kept. -/
def double_to_uint16 (wrap : Option ℚ → Nat) (x : Option ℚ) : Nat :=
  match x with
  | none => wrap x % 65536
  | some q =>
    let t := truncate q
    if 0 ≤ t ∧ t ≤ 0xffff then t.toNat else wrap x % 65536

/-- `bc_cp201t_get_temperature_celsius` on an implementation whose conversion to
`uint16_t` stores `wrap` where C leaves the result open; otherwise as above. -/
def bc_cp201t_get_temperature_celsius_on (wrap : Option ℚ → Nat) (g : Instances)
    (channel : bc_module_sensor_channel_t) (vdda_voltage : ℚ) (celsius : ℚ) :
    Option (Bool × ℚ) :=
  let cp201t := g.get channel
  let data : Nat := (cp201t.thermistor_data % 65536).toNat
  let data : Nat := double_to_uint16 wrap (scaled_product data vdda_voltage)
  let data : Nat := (((0xffff : Int) - (data : Int)) % 65536).toNat
  match _thermistor_conversion_table[data >>> 6]? with
  | none => none
  | some entry =>
    let temp_code : Int := to_int16 entry
    if temp_code ≠ 0x7fff then
      some (true, fixed_to_celsius temp_code)
    else
      some (false, celsius)

/-! ## One channel with its pending work -/

/-- A channel record together with the work pending for it outside the driver:
`planned` counts the plans of the measurement task not yet run by the scheduler,
`conversions` the conversions requested from the ADC and not yet completed. -/
structure System where
  cp201t : bc_cp201t_t
  planned : Nat
  conversions : Nat
deriving DecidableEq, Repr

/-- What can happen to a channel: the application requests a measurement, the scheduler
runs the measurement task, the ADC reports the completion of a conversion. -/
inductive Action where
  | measure
  | run_task_measure
  | adc_event (event : bc_adc_event_t) (result : Int)
deriving DecidableEq, Repr

/-- Record the calls of `trace` in the pending work: each `bc_scheduler_plan_now` of the
measurement task is one more plan, each `bc_adc_async_read` of the bound ADC channel one more
conversion. -/
def System.absorb (s : System) (cp201t : bc_cp201t_t) (trace : List Effect) : System :=
  { cp201t := cp201t
    planned := s.planned + trace.count (Effect.scheduler_plan_now s.cp201t.task_id_measure)
    conversions := s.conversions + trace.count (Effect.adc_async_read s.cp201t.channel_adc) }

/-- One step.  The measurement task runs only when a plan is pending and consumes it; a
completion is delivered only for a pending conversion and consumes it. -/
def System.step (s : System) : Action → Option System
  | .measure =>
    let m := bc_cp201t_measure s.cp201t
    some (s.absorb m.2.1 m.2.2)
  | .run_task_measure =>
    if s.planned = 0 then none
    else
      let m := _bc_cp201t_task_measure s.cp201t
      some ({ s with planned := s.planned - 1 }.absorb m.1 m.2)
  | .adc_event event result =>
    if s.conversions = 0 then none
    else
      match _bc_cp201t_adc_event_handler s.cp201t event result with
      | none => none
      | some m => some ({ s with conversions := s.conversions - 1 }.absorb m.1 m.2)

/-- Run a sequence of steps; `none` when one of them is not enabled. -/
def System.run (s : System) : List Action → Option System
  | [] => some s
  | a :: rest => (s.step a).bind (fun t => t.run rest)

/-- The system around a record that has no pending work. -/
def System.start (cp201t : bc_cp201t_t) : System :=
  { cp201t := cp201t, planned := 0, conversions := 0 }

/-- The accounting that the busy flag stands for: the flag is set exactly when one unit of
work (a plan or a conversion) is pending, and no more than one ever is. -/
def System.consistent (s : System) : Prop :=
  (s.cp201t.measurement_active = true ∧ s.planned + s.conversions = 1) ∨
  (s.cp201t.measurement_active = false ∧ s.planned + s.conversions = 0)

/-- The rescaled code in the words of the specification: the truncation toward zero of
`(r mod 2^16) * 3.3 / v` in exact arithmetic, for the stored raw code `r` and the supply
voltage `v`. -/
def rescaled_code_spec (r : Int) (v : ℚ) : Int :=
  truncate (((r % 65536 : Int) : ℚ) * 3.3 / v)

/-- Boolean check that a list of integers is nondecreasing, by adjacent comparison. -/
def nondecreasing : List Int → Bool
  | [] => true
  | [_] => true
  | a :: b :: t => decide (a ≤ b) && nondecreasing (b :: t)

/-- Boolean check that a list of rationals is nondecreasing, by adjacent comparison. -/
def nondecreasing_rat : List ℚ → Bool
  | [] => true
  | [_] => true
  | a :: b :: t => decide (a ≤ b) && nondecreasing_rat (b :: t)

/-- The conversion of an implementation that converts through a 32-bit signed register:
the low 16 bits of the truncated value when it fits 32 bits, and 0 otherwise (also for a
product without finite value). -/
def wrap_int32 (x : Option ℚ) : Nat :=
  match x with
  | none => 0
  | some q =>
    if -2147483648 ≤ truncate q ∧ truncate q ≤ 2147483647 then (truncate q % 65536).toNat
    else 0

/-- The records of both channels with the raw code of channel A replaced. -/
def with_raw_code (r : Int) : Instances :=
  _bc_cp201t.set .BC_MODULE_SENSOR_CHANNEL_A { _bc_cp201t.a with thermistor_data := r }

/-! ## Records used to instantiate the statements -/

/-- A busy record with a stored raw code, used to instantiate the statements. -/
def busy_record : bc_cp201t_t :=
  { _bc_cp201t.a with task_id_measure := 4, thermistor_data := 52700, event_handler := some 7,
                      event_param := 9, measurement_active := true }

/-- An idle record with a registered callback, used to instantiate the statements. -/
def idle_record : bc_cp201t_t :=
  { _bc_cp201t.a with task_id_measure := 4, thermistor_data := 52700, event_handler := some 7,
                      event_param := 9 }

/-- The records of both channels after a successful `bc_cp201t_init` of channel B that
was given the task identifiers 3 and 4. -/
def initialized_b : Instances :=
  _bc_cp201t.set .BC_MODULE_SENSOR_CHANNEL_B
    { _bc_cp201t.b with task_id_interval := 3, task_id_measure := 4, initialized := true }

/-! # Theorems -/

/-! ## Measurement trigger -/

/-- C1: on a record whose busy flag is set, `bc_cp201t_measure` returns false, leaves the
record (raw code and busy flag included) unchanged and makes no call at all: the
measurement task is not planned and no conversion is requested. -/
theorem measure_busy (self : bc_cp201t_t) (h : self.measurement_active = true) :
    (bc_cp201t_measure self).1 = false ∧
    (bc_cp201t_measure self).2.1 = self ∧
    (bc_cp201t_measure self).2.2 = [] := by
  simp [bc_cp201t_measure, h]

/-- C1 at `busy_record`. -/
theorem measure_busy_witness :
    busy_record.measurement_active = true ∧
    (bc_cp201t_measure busy_record).1 = false ∧
    (bc_cp201t_measure busy_record).2.1 = busy_record ∧
    (bc_cp201t_measure busy_record).2.2 = [] :=
  ⟨by decide, measure_busy busy_record (by decide)⟩

/-- C2: on a record whose busy flag is clear, `bc_cp201t_measure` returns true, sets the
busy flag and changes no other field, and its only call plans the measurement task
`task_id_measure` to run now; in particular it requests no conversion. -/
theorem measure_idle (self : bc_cp201t_t) (h : self.measurement_active = false) :
    (bc_cp201t_measure self).1 = true ∧
    (bc_cp201t_measure self).2.1 = { self with measurement_active := true } ∧
    (bc_cp201t_measure self).2.2 = [Effect.scheduler_plan_now self.task_id_measure] ∧
    ∀ ch, Effect.adc_async_read ch ∉ (bc_cp201t_measure self).2.2 := by
  simp [bc_cp201t_measure, h]

/-- C2 at `idle_record`, whose measurement task has the identifier 4. -/
theorem measure_idle_witness :
    idle_record.measurement_active = false ∧
    (bc_cp201t_measure idle_record).1 = true ∧
    (bc_cp201t_measure idle_record).2.1 = { idle_record with measurement_active := true } ∧
    (bc_cp201t_measure idle_record).2.2 = [Effect.scheduler_plan_now 4] :=
  ⟨by decide, (measure_idle idle_record (by decide)).1,
    (measure_idle idle_record (by decide)).2.1, (measure_idle idle_record (by decide)).2.2.1⟩

/-! ## At most one measurement in flight -/

theorem adc_event_handler_pending (cp201t : bc_cp201t_t) (event : bc_adc_event_t)
    (result : Int) (m : bc_cp201t_t × List Effect)
    (h : _bc_cp201t_adc_event_handler cp201t event result = some m) :
    m.1.measurement_active = false ∧
    (∀ id, m.2.count (Effect.scheduler_plan_now id) = 0) ∧
    (∀ ch, m.2.count (Effect.adc_async_read ch) = 0) := by
  cases hf : cp201t.event_handler with
  | none =>
    cases event <;> simp [_bc_cp201t_adc_event_handler, call_event_handler, hf] at h
  | some fn =>
    cases event <;> simp [_bc_cp201t_adc_event_handler, call_event_handler, hf] at h <;>
      subst h <;> simp

theorem System.consistent_step (s t : System) (a : Action) (hs : s.consistent)
    (h : s.step a = some t) : t.consistent := by
  cases a with
  | measure =>
    simp only [System.step, Option.some.injEq] at h
    subst h
    rcases hs with ⟨hb, hc⟩ | ⟨hb, hc⟩
    · left
      simp [System.absorb, bc_cp201t_measure, hb, hc]
    · left
      simp [System.absorb, bc_cp201t_measure, hb]
      omega
  | run_task_measure =>
    simp only [System.step] at h
    split at h
    · exact absurd h (by simp)
    · rename_i hp
      simp only [Option.some.injEq] at h
      subst h
      rcases hs with ⟨hb, hc⟩ | ⟨hb, hc⟩
      · left
        simp [System.absorb, _bc_cp201t_task_measure, hb]
        omega
      · omega
  | adc_event event result =>
    simp only [System.step] at h
    split at h
    · exact absurd h (by simp)
    · rename_i hp
      split at h
      · exact absurd h (by simp)
      · rename_i m hm
        simp only [Option.some.injEq] at h
        subst h
        obtain ⟨h1, h2, h3⟩ := adc_event_handler_pending _ _ _ _ hm
        rcases hs with ⟨hb, hc⟩ | ⟨hb, hc⟩
        · right
          simp only [System.absorb, h1, h2, h3]
          exact ⟨trivial, by omega⟩
        · omega

theorem System.consistent_run (acts : List Action) : ∀ (s t : System), s.consistent →
    s.run acts = some t → t.consistent := by
  induction acts with
  | nil =>
    intro s t hs h
    simp only [System.run, Option.some.injEq] at h
    exact h ▸ hs
  | cons a rest ih =>
    intro s t hs h
    simp only [System.run] at h
    cases hstep : s.step a with
    | none => simp [hstep] at h
    | some u =>
      rw [hstep] at h
      exact ih u t (System.consistent_step s u a hs hstep) h

/-- C3: start from a record whose busy flag is clear and that has no pending work, and take
any sequence of steps (measure request; run of the measurement task, enabled only by a
pending plan; ADC completion, enabled only by a pending conversion).  In the state
reached, the pending plans of the measurement task plus the pending conversions are at
most 1, and they are exactly 1 if and only if the busy flag is set. -/
theorem one_measurement_in_flight (cp201t : bc_cp201t_t) (acts : List Action) (s : System)
    (h0 : cp201t.measurement_active = false)
    (h : (System.start cp201t).run acts = some s) :
    s.planned + s.conversions ≤ 1 ∧
    (s.planned + s.conversions = 1 ↔ s.cp201t.measurement_active = true) := by
  have hc : s.consistent :=
    System.consistent_run acts (System.start cp201t) s (Or.inr ⟨h0, rfl⟩) h
  rcases hc with ⟨hb, hc⟩ | ⟨hb, hc⟩
  · exact ⟨by omega, by simp [hb, hc]⟩
  · exact ⟨by omega, by simp [hb, hc]⟩

/-- C3 on a run from `idle_record` that ends with one plan pending and the flag set. -/
theorem one_measurement_in_flight_witness :
    (System.start idle_record).run
        [.measure, .measure, .run_task_measure, .measure, .adc_event .BC_ADC_EVENT_DONE 52700,
         .measure] =
      some { cp201t := { idle_record with measurement_active := true }, planned := 1,
             conversions := 0 } ∧
    (1 + 0 ≤ 1 ∧ (1 + 0 = 1 ↔ true = true)) :=
  ⟨by decide,
   one_measurement_in_flight idle_record
     [.measure, .measure, .run_task_measure, .measure, .adc_event .BC_ADC_EVENT_DONE 52700,
      .measure]
     { cp201t := { idle_record with measurement_active := true }, planned := 1,
       conversions := 0 } (by decide) (by decide)⟩

/-! ## ADC completion handler -/

/-- C4: on a record with a registered callback `fn`, the completion handler returns
normally for either tag and clears the busy flag.  For the tag DONE the record otherwise
changes only in the raw code, which becomes the fetched result, and the calls are, in
this order: pull of the channel set to none, fetch of the ADC result, one call of `fn`
with the channel, the UPDATE event and the registered context. -/
theorem adc_event_handler_done (cp201t : bc_cp201t_t) (fn : Nat) (event : bc_adc_event_t)
    (result : Int) (h : cp201t.event_handler = some fn) :
    ∃ r trace, _bc_cp201t_adc_event_handler cp201t event result = some (r, trace) ∧
      r.measurement_active = false ∧
      (event = .BC_ADC_EVENT_DONE →
        r = { cp201t with measurement_active := false, thermistor_data := result } ∧
        trace =
          [Effect.module_sensor_set_pull cp201t.channel .BC_MODULE_SENSOR_PULL_NONE,
           Effect.adc_get_result cp201t.channel_adc,
           Effect.event_handler fn cp201t.channel .BC_CP201T_EVENT_UPDATE
             cp201t.event_param]) := by
  cases event
  · simp only [_bc_cp201t_adc_event_handler, call_event_handler, h]
    exact ⟨_, _, rfl, rfl, fun _ => ⟨rfl, rfl⟩⟩
  · simp only [_bc_cp201t_adc_event_handler, call_event_handler, h]
    exact ⟨_, _, rfl, rfl, fun he => by cases he⟩

/-- C4 at `busy_record` (callback 7, context 9) for the tag DONE and the result 1234. -/
theorem adc_event_handler_done_witness :
    _bc_cp201t_adc_event_handler busy_record .BC_ADC_EVENT_DONE 1234 =
      some ({ busy_record with measurement_active := false, thermistor_data := 1234 },
            [Effect.module_sensor_set_pull .BC_MODULE_SENSOR_CHANNEL_A .BC_MODULE_SENSOR_PULL_NONE,
             Effect.adc_get_result .BC_ADC_CHANNEL_A4,
             Effect.event_handler 7 .BC_MODULE_SENSOR_CHANNEL_A .BC_CP201T_EVENT_UPDATE 9]) := by
  obtain ⟨r, trace, h, -, hd⟩ :=
    adc_event_handler_done busy_record 7 .BC_ADC_EVENT_DONE 1234 (by decide)
  obtain ⟨hr, ht⟩ := hd rfl
  rw [h, hr, ht]
  rfl

/-- C5: on a record with a registered callback `fn`, the completion handler called with a
tag other than DONE changes only the busy flag, which it clears (raw code untouched), and
its only call is one call of `fn` with the channel, the ERROR event and the registered
context: the pull is not changed and no ADC result is fetched. -/
theorem adc_event_handler_error (cp201t : bc_cp201t_t) (fn : Nat) (event : bc_adc_event_t)
    (result : Int) (h : cp201t.event_handler = some fn) (he : event ≠ .BC_ADC_EVENT_DONE) :
    _bc_cp201t_adc_event_handler cp201t event result =
      some ({ cp201t with measurement_active := false },
            [Effect.event_handler fn cp201t.channel .BC_CP201T_EVENT_ERROR
               cp201t.event_param]) := by
  cases event
  · exact absurd rfl he
  · simp [_bc_cp201t_adc_event_handler, call_event_handler, h]

/-- C5 at `busy_record` (callback 7, context 9) for the tag ERROR. -/
theorem adc_event_handler_error_witness :
    _bc_cp201t_adc_event_handler busy_record .BC_ADC_EVENT_ERROR 1234 =
      some ({ busy_record with measurement_active := false },
            [Effect.event_handler 7 .BC_MODULE_SENSOR_CHANNEL_A .BC_CP201T_EVENT_ERROR 9]) :=
  adc_event_handler_error busy_record 7 .BC_ADC_EVENT_ERROR 1234 (by decide) (by decide)

/-- C6 (the code departs from it): on a record with no callback registered the completion
handler does not return normally for any tag: after clearing the busy flag (and, for DONE,
releasing the pull and storing the result) it calls through the NULL function pointer. -/
theorem adc_event_handler_null (cp201t : bc_cp201t_t) (event : bc_adc_event_t)
    (result : Int) (h : cp201t.event_handler = none) :
    _bc_cp201t_adc_event_handler cp201t event result = none := by
  cases event <;> simp [_bc_cp201t_adc_event_handler, call_event_handler, h]

/-- C6 at the initial record of channel A with a measurement in flight. -/
theorem adc_event_handler_null_witness :
    _bc_cp201t.a.event_handler = none ∧
    _bc_cp201t_adc_event_handler { _bc_cp201t.a with measurement_active := true }
      .BC_ADC_EVENT_DONE 52700 = none :=
  ⟨rfl, adc_event_handler_null { _bc_cp201t.a with measurement_active := true }
    .BC_ADC_EVENT_DONE 52700 rfl⟩

/-! ## Conversion table facts -/

theorem table_length : _thermistor_conversion_table.length = 1024 := by decide!

theorem table_entries_u16 : ∀ e ∈ _thermistor_conversion_table, e < 65536 := by
  have h : _thermistor_conversion_table.all (fun e => decide (e < 65536)) = true := by decide!
  simpa using h

theorem table_entry_200 : _thermistor_conversion_table[200]? = some 0x0060 := by decide!

theorem table_entry_118 : _thermistor_conversion_table[118]? = some 0xFFC8 := by decide!

theorem table_entry_1023 : _thermistor_conversion_table[1023]? = some 0x7FFF := by decide!

theorem table_entry_1020 : _thermistor_conversion_table[1020]? = some 0x7FFF := by decide!

theorem table_nondecreasing : nondecreasing
    ((_thermistor_conversion_table.filter (fun e => decide (e ≠ 0x7FFF))).map to_int16) = true := by
  decide!

theorem nondecreasing_chain : ∀ l : List Int, nondecreasing l = true →
    List.Chain' (fun a b : Int => a ≤ b) l
  | [], _ => List.chain'_nil
  | [_], _ => List.chain'_singleton _
  | a :: b :: t, h => by
    simp only [nondecreasing, Bool.and_eq_true, decide_eq_true_eq] at h
    exact List.chain'_cons.mpr ⟨h.1, nondecreasing_chain (b :: t) h.2⟩

theorem table_lookup (i : Nat) (h : i < 1024) :
    ∃ e, _thermistor_conversion_table[i]? = some e ∧ e < 65536 := by
  have hl : i < _thermistor_conversion_table.length := by rw [table_length]; exact h
  exact ⟨_thermistor_conversion_table[i], List.getElem?_eq_getElem hl,
    table_entries_u16 _ (List.getElem_mem hl)⟩

theorem table_celsius_bounded :
    (_thermistor_conversion_table.all
      (fun e => decide (e = 0x7FFF) ||
        (decide (-40 ≤ fixed_to_celsius (to_int16 e)) &&
          decide (fixed_to_celsius (to_int16 e) ≤ 125)))) = true := by
  decide!

theorem table_celsius_range (i e : Nat) (h : _thermistor_conversion_table[i]? = some e)
    (hv : e ≠ 0x7FFF) :
    -40 ≤ fixed_to_celsius (to_int16 e) ∧ fixed_to_celsius (to_int16 e) ≤ 125 := by
  have hall := List.all_eq_true.mp table_celsius_bounded e (List.mem_iff_getElem?.mpr ⟨i, h⟩)
  simpa [hv] using hall

theorem table_celsius_nondecreasing : nondecreasing_rat
    ((_thermistor_conversion_table.filter (fun e => decide (e ≠ 0x7FFF))).map
      (fun e => fixed_to_celsius (to_int16 e))) = true := by
  decide!

theorem nondecreasing_rat_chain : ∀ l : List ℚ, nondecreasing_rat l = true →
    List.Chain' (fun a b : ℚ => a ≤ b) l
  | [], _ => List.chain'_nil
  | [_], _ => List.chain'_singleton _
  | a :: b :: t, h => by
    simp only [nondecreasing_rat, Bool.and_eq_true, decide_eq_true_eq] at h
    exact List.chain'_cons.mpr ⟨h.1, nondecreasing_rat_chain (b :: t) h.2⟩

theorem table_pairwise_celsius :
    List.Pairwise (fun a b : Nat => a ≠ 0x7FFF → b ≠ 0x7FFF →
        fixed_to_celsius (to_int16 a) ≤ fixed_to_celsius (to_int16 b))
      _thermistor_conversion_table := by
  have h1 := List.chain'_iff_pairwise.mp
    (nondecreasing_rat_chain _ table_celsius_nondecreasing)
  have h2 := List.pairwise_map.mp h1
  have h3 := List.pairwise_filter.mp h2
  exact h3.imp (fun hab ha hb => hab (by simpa using ha) (by simpa using hb))

theorem table_entry_771 : _thermistor_conversion_table[771]? = some 0x04E2 := by decide!

theorem table_entry_770 : _thermistor_conversion_table[770]? = some 0x04D8 := by decide!

theorem table_entry_921 : _thermistor_conversion_table[921]? = some 0x7FFF := by decide!

/-! ## Rounding -/

theorem bits_zero (k : Nat) : bits k 0 = 0 := by
  cases k <;> simp [bits]

theorem bits_spec : ∀ k n : Nat, n < 2 ^ k → n ≠ 0 →
    2 ^ bits k n ≤ 2 * n ∧ n < 2 ^ bits k n := by
  intro k
  induction k with
  | zero =>
    intro n hn h0
    simp at hn
    exact absurd hn h0
  | succ k ih =>
    intro n hn h0
    have hb : bits (k + 1) n = bits k (n / 2) + 1 := by simp [bits, h0]
    rw [hb]
    by_cases h2 : n / 2 = 0
    · rw [h2, bits_zero]
      have : n = 1 := by omega
      subst this
      simp
    · have hlt : n / 2 < 2 ^ k := by
        rw [pow_succ] at hn
        omega
      obtain ⟨h1, h3⟩ := ih (n / 2) hlt h2
      rw [pow_succ]
      omega

theorem bit_length_spec (n : Nat) (h0 : n ≠ 0) :
    2 ^ bit_length n ≤ 2 * n ∧ n < 2 ^ bit_length n :=
  bits_spec n n (Nat.lt_two_pow n) h0

theorem abs_eq_num_div_den (x : ℚ) : |x| = (x.num.natAbs : ℚ) / (x.den : ℚ) := by
  conv_lhs => rw [← Rat.num_div_den x]
  rw [abs_div, Nat.cast_natAbs, Int.cast_abs, Nat.abs_cast]

theorem binade_le (x : ℚ) (hx : x ≠ 0) : (2 : ℚ) ^ binade x ≤ |x| := by
  unfold binade
  simp only
  split
  · assumption
  · have hn0 : x.num.natAbs ≠ 0 := by
      simpa using hx
    obtain ⟨hn, -⟩ := bit_length_spec _ hn0
    obtain ⟨-, hd⟩ := bit_length_spec _ x.den_nz
    have hdpos : (0 : ℚ) < (x.den : ℚ) := by exact_mod_cast x.den_pos
    have hnq : ((2 : ℚ) ^ bit_length x.num.natAbs) ≤ 2 * (x.num.natAbs : ℚ) := by
      exact_mod_cast hn
    have hdq : (x.den : ℚ) ≤ (2 : ℚ) ^ bit_length x.den := by
      exact_mod_cast hd.le
    have hpow : (2 : ℚ) ^ ((bit_length x.num.natAbs : Int) - (bit_length x.den : Int) - 1) =
        (2 : ℚ) ^ bit_length x.num.natAbs / ((2 : ℚ) ^ bit_length x.den * 2) := by
      rw [zpow_sub₀ (by norm_num), zpow_sub₀ (by norm_num), zpow_natCast, zpow_natCast,
        zpow_one, div_div]
    rw [hpow, abs_eq_num_div_den x, div_le_div_iff₀ (by positivity) hdpos]
    nlinarith [mul_le_mul hnq hdq hdpos.le (by positivity : (0:ℚ) ≤ 2 * (x.num.natAbs : ℚ))]

theorem lt_binade_succ (x : ℚ) (hx : x ≠ 0) : |x| < (2 : ℚ) ^ (binade x + 1) := by
  unfold binade
  simp only
  split
  · have hn0 : x.num.natAbs ≠ 0 := by
      simpa using hx
    obtain ⟨-, hn⟩ := bit_length_spec _ hn0
    obtain ⟨hd, -⟩ := bit_length_spec _ x.den_nz
    have hdpos : (0 : ℚ) < (x.den : ℚ) := by exact_mod_cast x.den_pos
    have hnq : (x.num.natAbs : ℚ) < (2 : ℚ) ^ bit_length x.num.natAbs := by
      exact_mod_cast hn
    have hdq : (2 : ℚ) ^ bit_length x.den ≤ 2 * (x.den : ℚ) := by
      exact_mod_cast hd
    have hpow : (2 : ℚ) ^ ((bit_length x.num.natAbs : Int) - (bit_length x.den : Int) + 1) =
        (2 : ℚ) ^ bit_length x.num.natAbs * 2 / (2 : ℚ) ^ bit_length x.den := by
      rw [zpow_add₀ (by norm_num), zpow_sub₀ (by norm_num), zpow_natCast, zpow_natCast,
        zpow_one, div_mul_eq_mul_div]
    rw [hpow, abs_eq_num_div_den x, div_lt_div_iff₀ hdpos (by positivity)]
    have h2pos : (0 : ℚ) < (2 : ℚ) ^ bit_length x.den := by positivity
    nlinarith [mul_lt_mul_of_pos_right hnq hdpos]
  · rename_i hlt
    rw [sub_add_cancel]
    exact not_le.mp hlt

theorem round_half_even_err (m : ℚ) : |(round_half_even m : ℚ) - m| ≤ 1 / 2 := by
  have h1 := Int.floor_le m
  have h2 := Int.lt_floor_add_one m
  unfold round_half_even
  simp only
  rw [abs_le]
  split
  · constructor <;> linarith
  · split
    · push_cast
      constructor <;> linarith
    · split
      · constructor <;> linarith
      · push_cast
        constructor <;> linarith

theorem to_binary_err (p : Nat) (emin : Int) (x : ℚ) (hx : x ≠ 0)
    (hmin : emin ≤ binade x - ((p : Int) - 1)) :
    |to_binary p emin x - x| ≤ |x| * 2 ^ (-(p : Int)) := by
  have hb := binade_le x hx
  have hulp : (0 : ℚ) < 2 ^ (binade x - ((p : Int) - 1)) := by positivity
  have herr := round_half_even_err (x / 2 ^ (binade x - ((p : Int) - 1)))
  have hto : to_binary p emin x =
      round_half_even (x / 2 ^ (binade x - ((p : Int) - 1))) * 2 ^ (binade x - ((p : Int) - 1)) := by
    simp [to_binary, hx, max_eq_left hmin]
  have hdiff : to_binary p emin x - x =
      ((round_half_even (x / 2 ^ (binade x - ((p : Int) - 1))) : ℚ) -
        x / 2 ^ (binade x - ((p : Int) - 1))) * 2 ^ (binade x - ((p : Int) - 1)) := by
    rw [hto, sub_mul, div_mul_cancel₀ _ hulp.ne']
  rw [hdiff, abs_mul, abs_of_pos hulp]
  have hsplit : (2 : ℚ) ^ (binade x - ((p : Int) - 1)) = 2 ^ binade x * 2 ^ (-(p : Int)) * 2 := by
    rw [show binade x - ((p : Int) - 1) = binade x + -(p : Int) + 1 by ring,
      zpow_add₀ (by norm_num), zpow_add₀ (by norm_num), zpow_one]
  have hp : (0 : ℚ) < 2 ^ (-(p : Int)) := by positivity
  calc |(round_half_even (x / 2 ^ (binade x - ((p : Int) - 1))) : ℚ) -
          x / 2 ^ (binade x - ((p : Int) - 1))| * 2 ^ (binade x - ((p : Int) - 1))
      ≤ 1 / 2 * 2 ^ (binade x - ((p : Int) - 1)) :=
        mul_le_mul_of_nonneg_right herr hulp.le
    _ = 2 ^ binade x * 2 ^ (-(p : Int)) := by rw [hsplit]; ring
    _ ≤ |x| * 2 ^ (-(p : Int)) := mul_le_mul_of_nonneg_right hb hp.le

theorem binade_nonneg (x : ℚ) (hx : 1 ≤ x) : 0 ≤ binade x := by
  by_contra hneg
  have hx0 : x ≠ 0 := by linarith
  have hlt := lt_binade_succ x hx0
  rw [abs_of_pos (by linarith)] at hlt
  have hle : (2 : ℚ) ^ (binade x + 1) ≤ 1 :=
    zpow_le_one_of_nonpos₀ (by norm_num) (by omega)
  linarith

theorem to_binary32_reference : to_binary32 3.3 = 13841203 / 4194304 := by decide!

theorem reference_factor :
    to_binary64 (to_binary64 3.3 / (13841203 / 4194304)) =
      4503599692445759 / 4503599627370496 := by decide!

theorem to_binary64_reference_product (d : Nat) (h1 : 1 ≤ d) (h : d ≤ 0xffff) :
    (d : ℚ) ≤ to_binary64 ((d : ℚ) * (4503599692445759 / 4503599627370496)) ∧
    to_binary64 ((d : ℚ) * (4503599692445759 / 4503599627370496)) < (d : ℚ) + 1 := by
  have hd1 : (1 : ℚ) ≤ (d : ℚ) := by exact_mod_cast h1
  have hd2 : (d : ℚ) ≤ 65535 := by exact_mod_cast h
  have hx1 : (1 : ℚ) ≤ (d : ℚ) * (4503599692445759 / 4503599627370496) := by linarith
  have hx0 : (d : ℚ) * (4503599692445759 / 4503599627370496) ≠ 0 := by linarith
  have hb := binade_nonneg _ hx1
  have herr := to_binary_err 53 (-1074) _ hx0 (by push_cast; omega)
  have hxabs : |(d : ℚ) * (4503599692445759 / 4503599627370496)| =
      (d : ℚ) * (4503599692445759 / 4503599627370496) := abs_of_pos (by linarith)
  have h53 : (2 : ℚ) ^ (-((53 : Nat) : Int)) = 1 / 9007199254740992 := by norm_num [zpow_neg]
  rw [hxabs, h53] at herr
  obtain ⟨hlo, hhi⟩ := abs_le.mp herr
  unfold to_binary64
  constructor <;> linarith

/-! ## Temperature conversion -/

theorem to_int16_sentinel (e : Nat) (h : e < 65536) : to_int16 e = 0x7fff ↔ e = 0x7FFF := by
  unfold to_int16
  split <;> omega

theorem truncate_intCast (z : Int) : truncate (z : ℚ) = z := by
  unfold truncate
  split <;> simp

theorem rescale_le (d s : Nat) (v : ℚ) (h : rescale d v = some s) : s ≤ 0xffff := by
  unfold rescale at h
  split at h
  · simp at h
  · simp only at h
    split at h
    · simp only [Option.some.injEq] at h
      omega
    · simp at h

theorem scaled_product_reference (d : Nat) :
    scaled_product d 3.3 =
      some (to_binary64 ((d : ℚ) * (4503599692445759 / 4503599627370496))) := by
  unfold scaled_product
  simp only [to_binary32_reference, reference_factor]
  rw [if_neg (by norm_num)]

theorem truncate_reference_product (d : Nat) (h : d ≤ 0xffff) :
    truncate (to_binary64 ((d : ℚ) * (4503599692445759 / 4503599627370496))) = (d : Int) := by
  rcases Nat.eq_zero_or_pos d with h0 | hpos
  · subst h0
    have hz : to_binary64 (((0 : Nat) : ℚ) * (4503599692445759 / 4503599627370496)) = 0 := by
      simp [to_binary64, to_binary]
    rw [hz]
    exact_mod_cast truncate_intCast 0
  · obtain ⟨hlo, hhi⟩ := to_binary64_reference_product d hpos h
    have hnn : (0 : ℚ) ≤ to_binary64 ((d : ℚ) * (4503599692445759 / 4503599627370496)) :=
      le_trans (by positivity) hlo
    unfold truncate
    rw [if_pos hnn]
    exact Int.floor_eq_iff.mpr ⟨by exact_mod_cast hlo, by exact_mod_cast hhi⟩

theorem rescale_reference (d : Nat) (h : d ≤ 0xffff) : rescale d 3.3 = some d := by
  unfold rescale
  rw [scaled_product_reference d]
  simp only [truncate_reference_product d h]
  rw [if_pos ⟨by omega, by omega⟩]
  simp

theorem index_eq (s : Nat) (h : s ≤ 0xffff) :
    (((0xffff : Int) - (s : Int)) % 65536).toNat >>> 6 = (0xFFFF - s) >>> 6 ∧
    (0xFFFF - s) >>> 6 < 1024 := by
  simp only [Nat.shiftRight_eq_div_pow]
  omega

theorem get_temperature_eq (g : Instances) (channel : bc_module_sensor_channel_t)
    (v c : ℚ) (s e : Nat)
    (hs : rescale ((g.get channel).thermistor_data % 65536).toNat v = some s)
    (he : _thermistor_conversion_table[(0xFFFF - s) >>> 6]? = some e) :
    bc_cp201t_get_temperature_celsius g channel v c =
      if to_int16 e ≠ 0x7fff then some (true, fixed_to_celsius (to_int16 e))
      else some (false, c) := by
  have hi := (index_eq s (rescale_le _ _ _ hs)).1
  unfold bc_cp201t_get_temperature_celsius
  simp only [hs, hi, he]

theorem double_to_uint16_lt (wrap : Option ℚ → Nat) (x : Option ℚ) :
    double_to_uint16 wrap x < 65536 := by
  unfold double_to_uint16
  split
  · omega
  · simp only
    split <;> omega

theorem double_to_uint16_of_rescale (wrap : Option ℚ → Nat) (d s : Nat) (v : ℚ)
    (h : rescale d v = some s) : double_to_uint16 wrap (scaled_product d v) = s := by
  unfold rescale at h
  unfold double_to_uint16
  split at h
  · simp at h
  · rename_i x hx
    rw [hx]
    simp only at h ⊢
    split at h
    · rename_i hr
      rw [if_pos hr]
      exact Option.some.inj h
    · simp at h

theorem get_temperature_on_eq (wrap : Option ℚ → Nat) (g : Instances)
    (channel : bc_module_sensor_channel_t) (v c : ℚ) (e : Nat)
    (he : _thermistor_conversion_table[
      (0xFFFF - double_to_uint16 wrap
        (scaled_product ((g.get channel).thermistor_data % 65536).toNat v)) >>> 6]? = some e) :
    bc_cp201t_get_temperature_celsius_on wrap g channel v c =
      if to_int16 e ≠ 0x7fff then some (true, fixed_to_celsius (to_int16 e))
      else some (false, c) := by
  have hi := (index_eq _ (Nat.le_of_lt_succ (double_to_uint16_lt wrap
    (scaled_product ((g.get channel).thermistor_data % 65536).toNat v)))).1
  unfold bc_cp201t_get_temperature_celsius_on
  simp only [hi, he]

/-- C7: for every stored raw code and supply voltage, whatever the conversion to
`uint16_t` stores where C leaves it open, the table has an entry `e` at the computed
index, `bc_cp201t_get_temperature_celsius` returns, its return value is false if and only
if `e` is the sentinel 0x7FFF, and when it is false the output location holds what it
held before the call.  Where C defines the conversion, this is the result of the
function as C defines it. -/
theorem get_temperature_false_iff_sentinel (wrap : Option ℚ → Nat) (g : Instances)
    (channel : bc_module_sensor_channel_t) (v c : ℚ) :
    ∃ e ret c',
      _thermistor_conversion_table[
        (0xFFFF - double_to_uint16 wrap
          (scaled_product ((g.get channel).thermistor_data % 65536).toNat v)) >>> 6]? =
        some e ∧
      bc_cp201t_get_temperature_celsius_on wrap g channel v c = some (ret, c') ∧
      (ret = false ↔ e = 0x7FFF) ∧ (ret = false → c' = c) ∧
      (∀ s, rescale ((g.get channel).thermistor_data % 65536).toNat v = some s →
        double_to_uint16 wrap
          (scaled_product ((g.get channel).thermistor_data % 65536).toNat v) = s ∧
        bc_cp201t_get_temperature_celsius g channel v c = some (ret, c')) := by
  have hlt := double_to_uint16_lt wrap
    (scaled_product ((g.get channel).thermistor_data % 65536).toNat v)
  obtain ⟨e, he, helt⟩ := table_lookup _ (index_eq _ (Nat.le_of_lt_succ hlt)).2
  have heq := get_temperature_on_eq wrap g channel v c e he
  have hdef : ∀ s, rescale ((g.get channel).thermistor_data % 65536).toNat v = some s →
      double_to_uint16 wrap
          (scaled_product ((g.get channel).thermistor_data % 65536).toNat v) = s ∧
      bc_cp201t_get_temperature_celsius g channel v c =
        bc_cp201t_get_temperature_celsius_on wrap g channel v c := by
    intro s hs
    have hd := double_to_uint16_of_rescale wrap _ s v hs
    refine ⟨hd, ?_⟩
    rw [heq, get_temperature_eq g channel v c s e hs (by rw [← hd]; exact he)]
  by_cases hsent : e = 0x7FFF
  · have h1 : ¬ (to_int16 e ≠ 0x7fff) := not_not.mpr ((to_int16_sentinel e helt).mpr hsent)
    rw [if_neg h1] at heq
    exact ⟨e, false, c, he, heq, by simp [hsent], fun _ => rfl,
      fun s hs => ⟨(hdef s hs).1, by rw [(hdef s hs).2, heq]⟩⟩
  · have h1 : to_int16 e ≠ 0x7fff := fun h => hsent ((to_int16_sentinel e helt).mp h)
    rw [if_pos h1] at heq
    exact ⟨e, true, _, he, heq, by simp [hsent], (fun h => by cases h),
      fun s hs => ⟨(hdef s hs).1, by rw [(hdef s hs).2, heq]⟩⟩

/-- C7 on the initial records (raw code 0) at the reference voltage, where C defines the
conversion: the index is 1023, the entry the sentinel, the call returns false and the
output keeps its content 25.  And at the raw code 65535 with 3.0 V, where the product
72088.49… does not fit `uint16_t`: an implementation that converts through a 32-bit
register stores 6552, the index is 921 and the call returns false as well. -/
theorem get_temperature_false_iff_sentinel_witness :
    rescale ((_bc_cp201t.get .BC_MODULE_SENSOR_CHANNEL_B).thermistor_data % 65536).toNat 3.3 =
      some 0 ∧
    bc_cp201t_get_temperature_celsius _bc_cp201t .BC_MODULE_SENSOR_CHANNEL_B 3.3 25 =
      some (false, 25) ∧
    rescale 65535 3.0 = none ∧
    bc_cp201t_get_temperature_celsius_on wrap_int32 (with_raw_code 65535)
      .BC_MODULE_SENSOR_CHANNEL_A 3.0 25 = some (false, 25) := by
  have hs : rescale ((_bc_cp201t.get .BC_MODULE_SENSOR_CHANNEL_B).thermistor_data
      % 65536).toNat 3.3 = some 0 := rescale_reference 0 (by decide)
  refine ⟨hs, ?_, by decide!, ?_⟩
  · obtain ⟨e, ret, c', he, -, hiff, hc, hdef⟩ :=
      get_temperature_false_iff_sentinel wrap_int32 _bc_cp201t
        .BC_MODULE_SENSOR_CHANNEL_B 3.3 25
    obtain ⟨hd, hg⟩ := hdef 0 hs
    rw [hd] at he
    have he1 : e = 0x7FFF := Option.some.inj (he.symm.trans table_entry_1023)
    have hret : ret = false := hiff.mpr he1
    rw [hg, hret, hc hret]
  · obtain ⟨e, ret, c', he, h, hiff, hc, -⟩ :=
      get_temperature_false_iff_sentinel wrap_int32 (with_raw_code 65535)
        .BC_MODULE_SENSOR_CHANNEL_A 3.0 25
    have hd : double_to_uint16 wrap_int32
        (scaled_product (((with_raw_code 65535).get .BC_MODULE_SENSOR_CHANNEL_A).thermistor_data
          % 65536).toNat 3.0) = 6552 := by decide!
    rw [hd] at he
    have he1 : e = 0x7FFF := Option.some.inj (he.symm.trans table_entry_921)
    have hret : ret = false := hiff.mpr he1
    rw [h, hret, hc hret]

/-- C8, as the code has it: let `s` be the rescaled code, the truncation toward zero of the
`double` product `(r mod 2^16) * (3.3 / v)`, where it fits `uint16_t`.  The table has an
entry `e` at index `(0xFFFF - s) >> 6` and, when `e` is not 0x7FFF,
`bc_cp201t_get_temperature_celsius` returns true with the output equal to `e` read as a
signed 16-bit integer, divided by 10 and stored as `float`.  With `v` the 3.3 reference,
`s = r mod 2^16`; every raw code in 52672..52735 then gives index 200, entry 0x0060 and
the `float` next to 9.6. -/
theorem get_temperature_lookup (g : Instances) (channel : bc_module_sensor_channel_t) (c : ℚ) :
    (∀ (v : ℚ) (s : Nat),
      rescale ((g.get channel).thermistor_data % 65536).toNat v = some s →
      ∃ e, _thermistor_conversion_table[(0xFFFF - s) >>> 6]? = some e ∧
        (e ≠ 0x7FFF →
          bc_cp201t_get_temperature_celsius g channel v c =
            some (true, fixed_to_celsius (to_int16 e)))) ∧
    rescale ((g.get channel).thermistor_data % 65536).toNat 3.3 =
      some ((g.get channel).thermistor_data % 65536).toNat ∧
    (52672 ≤ (g.get channel).thermistor_data → (g.get channel).thermistor_data ≤ 52735 →
      (0xFFFF - ((g.get channel).thermistor_data % 65536).toNat) >>> 6 = 200 ∧
      _thermistor_conversion_table[200]? = some 0x0060 ∧
      bc_cp201t_get_temperature_celsius g channel 3.3 c =
        some (true, 5033165 / 524288)) := by
  have href : rescale ((g.get channel).thermistor_data % 65536).toNat 3.3 =
      some ((g.get channel).thermistor_data % 65536).toNat :=
    rescale_reference _ (by omega)
  refine ⟨?_, href, ?_⟩
  · intro v s hs
    obtain ⟨e, he, hlt⟩ := table_lookup _ (index_eq _ (rescale_le _ _ _ hs)).2
    refine ⟨e, he, fun hne => ?_⟩
    rw [get_temperature_eq g channel v c _ e hs he,
      if_pos (fun h => hne ((to_int16_sentinel e hlt).mp h))]
  · intro hlo hhi
    have hidx : (0xFFFF - ((g.get channel).thermistor_data % 65536).toNat) >>> 6 = 200 := by
      simp only [Nat.shiftRight_eq_div_pow]
      omega
    refine ⟨hidx, table_entry_200, ?_⟩
    rw [get_temperature_eq g channel 3.3 c _ 0x0060 href (by rw [hidx]; exact table_entry_200)]
    have h96 : to_int16 0x0060 = 96 := by decide
    have hc : fixed_to_celsius 96 = 5033165 / 524288 := by decide!
    rw [h96, hc]
    simp

/-- C8, as the code has it, at the raw code 52700 with the reference voltage (index 200,
the `float` next to 9.6) and at the raw code 14720 with 3.0 V (rescaled code 16191,
index 771, entry 0x04E2, 125 degrees). -/
theorem get_temperature_lookup_witness :
    bc_cp201t_get_temperature_celsius (with_raw_code 52700) .BC_MODULE_SENSOR_CHANNEL_A 3.3 0 =
      some (true, 5033165 / 524288) ∧
    rescale 14720 3.0 = some 16191 ∧
    bc_cp201t_get_temperature_celsius (with_raw_code 14720) .BC_MODULE_SENSOR_CHANNEL_A 3.0 0 =
      some (true, 125) := by
  have hs : rescale (((with_raw_code 14720).get .BC_MODULE_SENSOR_CHANNEL_A).thermistor_data
      % 65536).toNat 3.0 = some 16191 := by decide!
  refine ⟨((get_temperature_lookup (with_raw_code 52700) .BC_MODULE_SENSOR_CHANNEL_A 0).2.2
    (by decide) (by decide)).2.2, hs, ?_⟩
  obtain ⟨e, he, h⟩ :=
    (get_temperature_lookup (with_raw_code 14720) .BC_MODULE_SENSOR_CHANNEL_A 0).1 3.0 16191 hs
  have he1 : e = 0x04E2 := Option.some.inj (he.symm.trans table_entry_771)
  subst he1
  rw [h (by decide)]
  have h1250 : to_int16 0x04E2 = 1250 := by decide
  have hc : fixed_to_celsius 1250 = 125 := by decide!
  rw [h1250, hc]

/-- C8 as stated fails at the raw code 14720 with 3.0 V: in exact arithmetic the rescaled
code is 16192, with index 770 and entry 0x04D8 = 1240, but the `double` product lies just
below 16192, the code's rescaled code is 16191 with index 771, and the call returns 125
degrees, not 124. -/
theorem get_temperature_exact_rescale_fails :
    rescaled_code_spec 14720 3.0 = 16192 ∧
    bc_cp201t_get_temperature_celsius (with_raw_code 14720) .BC_MODULE_SENSOR_CHANNEL_A 3.0 0 =
      some (true, 125) ∧
    ¬ (∃ e, _thermistor_conversion_table[
            (0xFFFF - (rescaled_code_spec 14720 3.0).toNat) >>> 6]? = some e ∧
        (e ≠ 0x7FFF →
          bc_cp201t_get_temperature_celsius (with_raw_code 14720)
            .BC_MODULE_SENSOR_CHANNEL_A 3.0 0 = some (true, (to_int16 e : ℚ) / 10))) := by
  have hspec : rescaled_code_spec 14720 3.0 = 16192 := by decide!
  have hcode : bc_cp201t_get_temperature_celsius (with_raw_code 14720)
      .BC_MODULE_SENSOR_CHANNEL_A 3.0 0 = some (true, 125) := by decide!
  refine ⟨hspec, hcode, ?_⟩
  rintro ⟨e, he, h⟩
  rw [hspec] at he
  have he1 : e = 0x04D8 := Option.some.inj (he.symm.trans table_entry_770)
  subst he1
  have h2 := h (by decide)
  rw [hcode] at h2
  have h1240 : to_int16 0x04D8 = 1240 := by decide
  rw [h1240] at h2
  norm_num at h2

/-- C9, as the code has it: with the supply voltage equal to the 3.3 reference and a stored
raw code of 200, the rescaled code is 200, the corrected code 0xFFFF - 200 has index
`(0xFFFF - 200) >> 6 = 1020`, in the trailing sentinel region of the table (the entry is
0x7FFF), and `bc_cp201t_get_temperature_celsius` returns false and leaves the output
location as it was. -/
theorem get_temperature_raw_200 (g : Instances) (channel : bc_module_sensor_channel_t) (c : ℚ)
    (h : (g.get channel).thermistor_data = 200) :
    rescale ((g.get channel).thermistor_data % 65536).toNat 3.3 = some 200 ∧
    (0xFFFF - 200) >>> 6 = 1020 ∧
    _thermistor_conversion_table[(0xFFFF - 200) >>> 6]? = some 0x7FFF ∧
    bc_cp201t_get_temperature_celsius g channel 3.3 c = some (false, c) := by
  have hs : rescale ((g.get channel).thermistor_data % 65536).toNat 3.3 = some 200 := by
    rw [h]
    exact rescale_reference 200 (by decide)
  refine ⟨hs, by decide, table_entry_1020, ?_⟩
  rw [get_temperature_eq g channel 3.3 c 200 0x7FFF hs table_entry_1020]
  have h1 : to_int16 0x7FFF = 0x7fff := by decide
  simp [h1]

/-- C9, as the code has it, at the raw code 200 on channel A with the output holding 25. -/
theorem get_temperature_raw_200_witness :
    bc_cp201t_get_temperature_celsius (with_raw_code 200) .BC_MODULE_SENSOR_CHANNEL_A 3.3 25 =
      some (false, 25) :=
  (get_temperature_raw_200 (with_raw_code 200) .BC_MODULE_SENSOR_CHANNEL_A 25 rfl).2.2.2

/-- C9 as stated fails: with the supply voltage 3.3 and the stored raw code 200 the call
does not succeed with the output `table[(0xFFFF - 200) >> 6] / 10`; it returns false. -/
theorem get_temperature_raw_200_fails :
    ¬ (∃ e, _thermistor_conversion_table[(0xFFFF - 200) >>> 6]? = some e ∧
        bc_cp201t_get_temperature_celsius (with_raw_code 200) .BC_MODULE_SENSOR_CHANNEL_A 3.3 0 =
          some (true, (to_int16 e : ℚ) / 10)) := by
  rintro ⟨e, -, h⟩
  have hs : rescale (((with_raw_code 200).get .BC_MODULE_SENSOR_CHANNEL_A).thermistor_data
      % 65536).toNat 3.3 = some 200 := rescale_reference 200 (by decide)
  rw [get_temperature_eq _ _ 3.3 0 200 0x7FFF hs table_entry_1020] at h
  have h1 : to_int16 0x7FFF = 0x7fff := by decide
  simp [h1] at h

/-- C10: the table is monotonic over its valid region: for indices `i < j` whose entries
both differ from 0x7FFF, the entry at `i` read as a signed 16-bit temperature code is at
most the entry at `j` read the same way. -/
theorem table_monotonic (i j : Nat) (ei ej : Nat) (hij : i < j)
    (hi : _thermistor_conversion_table[i]? = some ei)
    (hj : _thermistor_conversion_table[j]? = some ej)
    (hvi : ei ≠ 0x7FFF) (hvj : ej ≠ 0x7FFF) :
    to_int16 ei ≤ to_int16 ej := by
  have hp : List.Pairwise (fun a b : Nat => a ≠ 0x7FFF → b ≠ 0x7FFF → to_int16 a ≤ to_int16 b)
      _thermistor_conversion_table := by
    have h1 := List.chain'_iff_pairwise.mp (nondecreasing_chain _ table_nondecreasing)
    have h2 := List.pairwise_map.mp h1
    have h3 := List.pairwise_filter.mp h2
    exact h3.imp (fun hab ha hb => hab (by simpa using ha) (by simpa using hb))
  obtain ⟨hil, rfl⟩ := List.getElem?_eq_some.mp hi
  obtain ⟨hjl, rfl⟩ := List.getElem?_eq_some.mp hj
  exact List.pairwise_iff_getElem.mp hp i j hil hjl hij hvi hvj

/-- C10 at the indices 23 (entry 0xFE70) and 200 (entry 0x0060). -/
theorem table_monotonic_witness :
    to_int16 0xFE70 ≤ to_int16 0x0060 :=
  table_monotonic 23 200 0xFE70 0x0060 (by decide) (by decide!) table_entry_200
    (by decide) (by decide)

/-! ## Channel lifecycle -/

theorem Instances.get_set (g : Instances) (channel : bc_module_sensor_channel_t)
    (r : bc_cp201t_t) : (g.set channel r).get channel = r := by
  cases channel <;> rfl

theorem Instances.get_set_other (g : Instances) (channel other : bc_module_sensor_channel_t)
    (r : bc_cp201t_t) (h : other ≠ channel) : (g.set channel r).get other = g.get other := by
  cases channel <;> cases other <;> first | rfl | exact absurd rfl h

theorem init_initialized (g : Instances) (channel : bc_module_sensor_channel_t)
    (ok : Bool) (i1 i2 : Nat) (h : (g.get channel).initialized = true) :
    bc_cp201t_init g channel ok i1 i2 = (true, g, []) := by
  simp [bc_cp201t_init, h]

theorem init_sets_initialized (g : Instances) (channel : bc_module_sensor_channel_t)
    (ok : Bool) (i1 i2 : Nat) (h : (bc_cp201t_init g channel ok i1 i2).1 = true) :
    ((bc_cp201t_init g channel ok i1 i2).2.1.get channel).initialized = true := by
  cases hi : (g.get channel).initialized with
  | true => rw [init_initialized g channel ok i1 i2 hi]; exact hi
  | false =>
    cases ok with
    | false => simp [bc_cp201t_init, hi] at h
    | true => simp [bc_cp201t_init, hi, Instances.get_set]

/-- C12: on a channel whose initialized flag is set, `bc_cp201t_init` returns true, leaves
both records unchanged and makes no call (no front-end initialization, no ADC
configuration, no handler subscription, no task registration).  Hence after a call that
returned true a second call on the same channel returns true with the state of the
first call and no further call, whatever the front-end and the scheduler would answer. -/
theorem init_idempotent (g : Instances) (channel : bc_module_sensor_channel_t)
    (ok ok2 : Bool) (i1 i2 j1 j2 : Nat) :
    ((g.get channel).initialized = true →
      bc_cp201t_init g channel ok i1 i2 = (true, g, [])) ∧
    ((bc_cp201t_init g channel ok i1 i2).1 = true →
      bc_cp201t_init (bc_cp201t_init g channel ok i1 i2).2.1 channel ok2 j1 j2 =
        (true, (bc_cp201t_init g channel ok i1 i2).2.1, [])) :=
  ⟨init_initialized g channel ok i1 i2,
   fun h => init_initialized _ channel ok2 j1 j2 (init_sets_initialized g channel ok i1 i2 h)⟩

/-- C12 on channel B: a call on the initialized records is a no-op, and so is the second
of two calls from the initial records (the first obtains the task identifiers 3 and 4). -/
theorem init_idempotent_witness :
    bc_cp201t_init initialized_b .BC_MODULE_SENSOR_CHANNEL_B false 8 9 =
      (true, initialized_b, []) ∧
    (bc_cp201t_init _bc_cp201t .BC_MODULE_SENSOR_CHANNEL_B true 3 4).2.1 = initialized_b ∧
    bc_cp201t_init (bc_cp201t_init _bc_cp201t .BC_MODULE_SENSOR_CHANNEL_B true 3 4).2.1
        .BC_MODULE_SENSOR_CHANNEL_B false 8 9 =
      (true, (bc_cp201t_init _bc_cp201t .BC_MODULE_SENSOR_CHANNEL_B true 3 4).2.1, []) :=
  ⟨(init_idempotent initialized_b .BC_MODULE_SENSOR_CHANNEL_B false false 8 9 8 9).1 (by decide),
   by decide,
   (init_idempotent _bc_cp201t .BC_MODULE_SENSOR_CHANNEL_B true false 3 4 8 9).2 (by decide)⟩

/-- C13: on a channel whose initialized flag is clear, `bc_cp201t_init` returns false if
and only if `bc_module_sensor_init` fails, and then both records are unchanged and the
call to `bc_module_sensor_init` is the only call made: the ADC is not configured, no
handler is subscribed and no task is registered. -/
theorem init_failure (g : Instances) (channel : bc_module_sensor_channel_t)
    (ok : Bool) (i1 i2 : Nat) (h : (g.get channel).initialized = false) :
    ((bc_cp201t_init g channel ok i1 i2).1 = false ↔ ok = false) ∧
    (ok = false →
      bc_cp201t_init g channel ok i1 i2 = (false, g, [Effect.module_sensor_init])) := by
  cases ok <;> simp [bc_cp201t_init, h]

/-- C13 on channel A of the initial records, for a failing front-end. -/
theorem init_failure_witness :
    (_bc_cp201t.get .BC_MODULE_SENSOR_CHANNEL_A).initialized = false ∧
    bc_cp201t_init _bc_cp201t .BC_MODULE_SENSOR_CHANNEL_A false 3 4 =
      (false, _bc_cp201t, [Effect.module_sensor_init]) :=
  ⟨rfl, (init_failure _bc_cp201t .BC_MODULE_SENSOR_CHANNEL_A false 3 4 rfl).2 rfl⟩

/-- C14: `bc_cp201t_set_update_interval` stores the interval in the record of the channel
and changes nothing else (no other field, not the other record).  Its only call plans the
interval task: at the absolute deadline infinity when the interval is the infinity
sentinel, and relative to now by the interval otherwise. -/
theorem set_update_interval_effect (g : Instances) (channel : bc_module_sensor_channel_t)
    (interval : Nat) :
    ((bc_cp201t_set_update_interval g channel interval).1.get channel =
      { g.get channel with update_interval := interval }) ∧
    (∀ other, other ≠ channel →
      (bc_cp201t_set_update_interval g channel interval).1.get other = g.get other) ∧
    (interval = BC_TICK_INFINITY →
      (bc_cp201t_set_update_interval g channel interval).2 =
        [Effect.scheduler_plan_absolute (g.get channel).task_id_interval BC_TICK_INFINITY]) ∧
    (interval ≠ BC_TICK_INFINITY →
      (bc_cp201t_set_update_interval g channel interval).2 =
        [Effect.scheduler_plan_relative (g.get channel).task_id_interval interval]) := by
  refine ⟨?_, ?_, ?_, ?_⟩
  · unfold bc_cp201t_set_update_interval
    simp only
    split <;> exact Instances.get_set _ _ _
  · intro other ho
    unfold bc_cp201t_set_update_interval
    simp only
    split <;> exact Instances.get_set_other _ _ _ _ ho
  · intro hi
    simp [bc_cp201t_set_update_interval, hi]
  · intro hi
    simp [bc_cp201t_set_update_interval, hi]

/-- C14 on channel B of the initialized records (interval task 3): the sentinel interval,
then the interval 1000. -/
theorem set_update_interval_effect_witness :
    (bc_cp201t_set_update_interval initialized_b .BC_MODULE_SENSOR_CHANNEL_B
        BC_TICK_INFINITY).2 =
      [Effect.scheduler_plan_absolute 3 BC_TICK_INFINITY] ∧
    (bc_cp201t_set_update_interval initialized_b .BC_MODULE_SENSOR_CHANNEL_B 1000).2 =
      [Effect.scheduler_plan_relative 3 1000] ∧
    (bc_cp201t_set_update_interval initialized_b .BC_MODULE_SENSOR_CHANNEL_B 1000).1.get
        .BC_MODULE_SENSOR_CHANNEL_A = initialized_b.get .BC_MODULE_SENSOR_CHANNEL_A :=
  ⟨(set_update_interval_effect initialized_b .BC_MODULE_SENSOR_CHANNEL_B
      BC_TICK_INFINITY).2.2.1 rfl,
   (set_update_interval_effect initialized_b .BC_MODULE_SENSOR_CHANNEL_B 1000).2.2.2
      (by decide),
   (set_update_interval_effect initialized_b .BC_MODULE_SENSOR_CHANNEL_B 1000).2.1
      .BC_MODULE_SENSOR_CHANNEL_A (by decide)⟩

/-- C15: one firing of the interval task leaves the record with the busy flag set and no
other field changed, whether it was busy or idle.  Its calls are the plan of the
measurement task, made only when the channel was idle, followed in both cases by the
self-reschedule relative to now by `update_interval`; the result of the measurement
trigger has no influence on either. -/
theorem task_interval_effect (cp201t : bc_cp201t_t) :
    (_bc_cp201t_task_interval cp201t).1 = { cp201t with measurement_active := true } ∧
    (_bc_cp201t_task_interval cp201t).2 =
      (if cp201t.measurement_active then []
        else [Effect.scheduler_plan_now cp201t.task_id_measure]) ++
      [Effect.scheduler_plan_current_relative cp201t.update_interval] := by
  cases h : cp201t.measurement_active with
  | true =>
    refine ⟨?_, ?_⟩
    · simp only [_bc_cp201t_task_interval, bc_cp201t_measure, h, if_true]
      cases cp201t
      simp_all
    · simp [_bc_cp201t_task_interval, bc_cp201t_measure, h]
  | false =>
    simp [_bc_cp201t_task_interval, bc_cp201t_measure, h]

/-! ## Shape of the conversion table -/

theorem table_regions :
    (_thermistor_conversion_table.enum.all
      (fun p => decide (p.2 = 0x7FFF) == decide (p.1 < 23 ∨ 771 < p.1))) = true := by
  decide!

theorem table_sentinel_iff (i e : Nat) (h : _thermistor_conversion_table[i]? = some e) :
    e = 0x7FFF ↔ i < 23 ∨ 771 < i := by
  have hall := List.all_eq_true.mp table_regions (i, e) (List.mem_enum_iff_getElem?.mpr h)
  exact decide_eq_decide.mp (beq_iff_eq.mp hall)

theorem table_codes_bounded :
    (_thermistor_conversion_table.all
      (fun e => decide (e = 0x7FFF) ||
        (decide (-400 ≤ to_int16 e) && decide (to_int16 e ≤ 1250)))) = true := by
  decide!

theorem table_code_range (i e : Nat) (h : _thermistor_conversion_table[i]? = some e)
    (hv : e ≠ 0x7FFF) : -400 ≤ to_int16 e ∧ to_int16 e ≤ 1250 := by
  have hall := List.all_eq_true.mp table_codes_bounded e (List.mem_iff_getElem?.mpr ⟨i, h⟩)
  simpa [hv] using hall

theorem table_entry_23 : _thermistor_conversion_table[23]? = some 0xFE70 := by decide!

theorem table_entry_772 : _thermistor_conversion_table[772]? = some 0x7FFF := by decide!

theorem table_pairwise :
    List.Pairwise (fun a b : Nat => a ≠ 0x7FFF → b ≠ 0x7FFF → to_int16 a ≤ to_int16 b)
      _thermistor_conversion_table := by
  have h1 := List.chain'_iff_pairwise.mp (nondecreasing_chain _ table_nondecreasing)
  have h2 := List.pairwise_map.mp h1
  have h3 := List.pairwise_filter.mp h2
  exact h3.imp (fun hab ha hb => hab (by simpa using ha) (by simpa using hb))

/-- C11, as the table has it: the table has exactly 1024 entries, and with `lo = 23` and
`hi = 771` (so `lo ≤ hi`) the entry at index `i` equals 0x7FFF if and only if `i < lo` or
`i > hi`; no sentinel lies between two valid entries. -/
theorem table_sentinels_at_extremes :
    _thermistor_conversion_table.length = 1024 ∧ 23 ≤ 771 ∧
    ∀ i e, _thermistor_conversion_table[i]? = some e → (e = 0x7FFF ↔ i < 23 ∨ i > 771) :=
  ⟨table_length, by decide, fun i e h => table_sentinel_iff i e h⟩

/-- C11, as the table has it, at the last valid index 771 and the first trailing
sentinel 772. -/
theorem table_sentinels_at_extremes_witness :
    ((0x04E2 : Nat) = 0x7FFF ↔ 771 < 23 ∨ 771 > 771) ∧
    ((0x7FFF : Nat) = 0x7FFF ↔ 772 < 23 ∨ 772 > 771) :=
  ⟨table_sentinels_at_extremes.2.2 771 0x04E2 table_entry_771,
   table_sentinels_at_extremes.2.2 772 0x7FFF table_entry_772⟩

/-- C11 as stated fails: with `hi = 772` the entry at index 772 is the sentinel although
772 is neither below 23 nor above 772. -/
theorem table_sentinel_at_772 :
    ¬ (∀ i e, _thermistor_conversion_table[i]? = some e →
        (e = 0x7FFF ↔ i < 23 ∨ i > 772)) := by
  intro h
  have h772 := (h 772 0x7FFF table_entry_772).mp rfl
  omega

/-! ## Range of the lookup -/

theorem get_temperature_some_true (g : Instances) (channel : bc_module_sensor_channel_t)
    (v c t : ℚ) (h : bc_cp201t_get_temperature_celsius g channel v c = some (true, t)) :
    ∃ s e, rescale ((g.get channel).thermistor_data % 65536).toNat v = some s ∧
      _thermistor_conversion_table[(0xFFFF - s) >>> 6]? = some e ∧ e ≠ 0x7FFF ∧
      t = fixed_to_celsius (to_int16 e) := by
  cases hs : rescale ((g.get channel).thermistor_data % 65536).toNat v with
  | none => simp [bc_cp201t_get_temperature_celsius, hs] at h
  | some s =>
    obtain ⟨e, he, hlt⟩ := table_lookup _ (index_eq s (rescale_le _ _ _ hs)).2
    rw [get_temperature_eq g channel v c s e hs he] at h
    split at h
    · rename_i hne
      simp only [Option.some.injEq, Prod.mk.injEq, true_and] at h
      exact ⟨s, e, rfl, he, fun h7 => hne ((to_int16_sentinel e hlt).mpr h7), h.symm⟩
    · simp at h

/-- C16: for every 16-bit rescaled code `d` the inversion `0xFFFF - d` is not negative,
so the value stored back is `0xFFFF - d`, and the index `(0xFFFF - d) >> 6` is below the
length of the table, where an entry is found.  The call is therefore undefined only when
the rescaling is: the indexing never leaves the table. -/
theorem lookup_in_bounds (g : Instances) (channel : bc_module_sensor_channel_t) (v c : ℚ) :
    (∀ d : Nat, d < 65536 →
      (0 : Int) ≤ 0xffff - (d : Int) ∧
      (((0xffff : Int) - (d : Int)) % 65536).toNat = 0xFFFF - d ∧
      (0xFFFF - d) >>> 6 < _thermistor_conversion_table.length ∧
      (0xFFFF - d) >>> 6 < 1024 ∧
      ∃ e, _thermistor_conversion_table[(0xFFFF - d) >>> 6]? = some e) ∧
    (bc_cp201t_get_temperature_celsius g channel v c = none ↔
      rescale ((g.get channel).thermistor_data % 65536).toNat v = none) := by
  constructor
  · intro d hd
    have hi := (index_eq d (by omega)).2
    obtain ⟨e, he, -⟩ := table_lookup _ hi
    exact ⟨by omega, by omega, by rw [table_length]; exact hi, hi, e, he⟩
  · constructor
    · intro h
      cases hs : rescale ((g.get channel).thermistor_data % 65536).toNat v with
      | none => rfl
      | some s =>
        obtain ⟨e, he, -⟩ := table_lookup _ (index_eq s (rescale_le _ _ _ hs)).2
        rw [get_temperature_eq g channel v c s e hs he] at h
        split at h <;> simp at h
    · intro h
      simp [bc_cp201t_get_temperature_celsius, h]

/-- C16 at the largest code 65535 (index 0) and the smallest code 0 (index 1023). -/
theorem lookup_in_bounds_witness :
    ((0xFFFF - 65535) >>> 6 < 1024 ∧ (0xFFFF - 0) >>> 6 < 1024) ∧
    (∃ e, _thermistor_conversion_table[(0xFFFF - 65535) >>> 6]? = some e) ∧
    (∃ e, _thermistor_conversion_table[(0xFFFF - 0) >>> 6]? = some e) :=
  ⟨⟨((lookup_in_bounds _bc_cp201t .BC_MODULE_SENSOR_CHANNEL_A 3.3 0).1 65535
      (by decide)).2.2.2.1,
    ((lookup_in_bounds _bc_cp201t .BC_MODULE_SENSOR_CHANNEL_A 3.3 0).1 0
      (by decide)).2.2.2.1⟩,
   ((lookup_in_bounds _bc_cp201t .BC_MODULE_SENSOR_CHANNEL_A 3.3 0).1 65535
      (by decide)).2.2.2.2,
   ((lookup_in_bounds _bc_cp201t .BC_MODULE_SENSOR_CHANNEL_A 3.3 0).1 0
      (by decide)).2.2.2.2⟩

/-- C17, as the table has it: for every 16-bit rescaled code `s` the entry at
`(0xFFFF - s) >> 6` is valid (not the sentinel) if and only if `16128 ≤ s ≤ 64063`, and a
call whose rescaled code is `s` succeeds with that entry for these codes and reports out
of range, leaving the output as it was, for every code below 16128 or above 64063. -/
theorem lookup_valid_iff (s : Nat) (hs : s < 65536) :
    ∃ e, _thermistor_conversion_table[(0xFFFF - s) >>> 6]? = some e ∧
      (e ≠ 0x7FFF ↔ 16128 ≤ s ∧ s ≤ 64063) ∧
      ∀ (g : Instances) (channel : bc_module_sensor_channel_t) (v c : ℚ),
        rescale ((g.get channel).thermistor_data % 65536).toNat v = some s →
        bc_cp201t_get_temperature_celsius g channel v c =
          if 16128 ≤ s ∧ s ≤ 64063 then some (true, fixed_to_celsius (to_int16 e))
          else some (false, c) := by
  obtain ⟨e, he, hlt⟩ := table_lookup _ (index_eq s (by omega)).2
  have hsent := table_sentinel_iff _ e he
  have hiff : e ≠ 0x7FFF ↔ 16128 ≤ s ∧ s ≤ 64063 := by
    rw [Ne, hsent]
    simp only [Nat.shiftRight_eq_div_pow]
    omega
  refine ⟨e, he, hiff, fun g channel v c hr => ?_⟩
  rw [get_temperature_eq g channel v c s e hr he]
  by_cases hv : e = 0x7FFF
  · rw [if_neg (not_not.mpr ((to_int16_sentinel e hlt).mpr hv)),
      if_neg (fun h => (hiff.mpr h) hv)]
  · rw [if_pos (fun h => hv ((to_int16_sentinel e hlt).mp h)), if_pos (hiff.mp hv)]

/-- C17, as the table has it, at the code 16128, the smallest valid one (index 771, entry
0x04E2): the call at the reference voltage succeeds with 125 degrees. -/
theorem lookup_valid_iff_witness :
    bc_cp201t_get_temperature_celsius (with_raw_code 16128) .BC_MODULE_SENSOR_CHANNEL_A 3.3 0 =
      some (true, 125) := by
  obtain ⟨e, he, -, h⟩ := lookup_valid_iff 16128 (by decide)
  have he1 : e = 0x04E2 := Option.some.inj (he.symm.trans table_entry_771)
  subst he1
  rw [h (with_raw_code 16128) .BC_MODULE_SENSOR_CHANNEL_A 3.3 0
    (rescale_reference 16128 (by decide)), if_pos (by decide)]
  have h1250 : to_int16 0x04E2 = 1250 := by decide
  have hc : fixed_to_celsius 1250 = 125 := by decide!
  rw [h1250, hc]

/-- C17 as stated fails at the code 16064: it lies in `16064 ≤ s ≤ 64063`, yet its index
is 772, the entry is the sentinel and the call at the reference voltage does not
succeed. -/
theorem lookup_16064_out_of_range :
    ¬ ((∃ t, bc_cp201t_get_temperature_celsius (with_raw_code 16064)
            .BC_MODULE_SENSOR_CHANNEL_A 3.3 0 = some (true, t)) ↔
        16064 ≤ 16064 ∧ 16064 ≤ 64063) := by
  intro h
  obtain ⟨t, ht⟩ := h.mpr ⟨by decide, by decide⟩
  have hs : rescale (((with_raw_code 16064).get .BC_MODULE_SENSOR_CHANNEL_A).thermistor_data
      % 65536).toNat 3.3 = some 16064 := rescale_reference 16064 (by decide)
  rw [get_temperature_eq _ _ 3.3 0 16064 0x7FFF hs table_entry_772] at ht
  have h1 : to_int16 0x7FFF = 0x7fff := by decide
  simp [h1] at ht

/-! ## Range and direction of the reported temperature -/

theorem get_temperature_reference (r e : Nat) (c : ℚ) (hr : r ≤ 0xffff)
    (he : _thermistor_conversion_table[(0xFFFF - r) >>> 6]? = some e) (hv : e ≠ 0x7FFF) :
    bc_cp201t_get_temperature_celsius (with_raw_code r) .BC_MODULE_SENSOR_CHANNEL_A 3.3 c =
      some (true, fixed_to_celsius (to_int16 e)) := by
  have hs : rescale (((with_raw_code r).get .BC_MODULE_SENSOR_CHANNEL_A).thermistor_data
      % 65536).toNat 3.3 = some r := by
    have hd : (((with_raw_code r).get .BC_MODULE_SENSOR_CHANNEL_A).thermistor_data
        % 65536).toNat = r := by
      show (((r : Int)) % 65536).toNat = r
      omega
    rw [hd]
    exact rescale_reference r hr
  obtain ⟨e2, he2, hlt⟩ := table_lookup _ (index_eq r hr).2
  have hee : e2 = e := Option.some.inj (he2.symm.trans he)
  subst hee
  rw [get_temperature_eq _ _ 3.3 c r e2 hs he,
    if_pos (fun h => hv ((to_int16_sentinel e2 hlt).mp h))]

/-- C18, as the table has it: whenever `bc_cp201t_get_temperature_celsius` succeeds, the
output is a temperature code divided by 10, stored as `float`, with the code between -400
and 1250, so the reported temperature lies between -40.0 and 125.0 degrees.  Both bounds are attained:
index 23 holds 0xFE70 = -400 and index 771 holds 0x04E2 = 1250, reached at the reference
voltage by the raw codes 64063 and 16128. -/
theorem temperature_code_range (g : Instances) (channel : bc_module_sensor_channel_t)
    (v c : ℚ) :
    (∀ t, bc_cp201t_get_temperature_celsius g channel v c = some (true, t) →
      ∃ code : Int, -400 ≤ code ∧ code ≤ 1250 ∧ t = fixed_to_celsius code ∧
        -40 ≤ t ∧ t ≤ 125) ∧
    (_thermistor_conversion_table[23]? = some 0xFE70 ∧ to_int16 0xFE70 = -400) ∧
    (_thermistor_conversion_table[771]? = some 0x04E2 ∧ to_int16 0x04E2 = 1250) ∧
    bc_cp201t_get_temperature_celsius (with_raw_code 64063) .BC_MODULE_SENSOR_CHANNEL_A 3.3 c =
      some (true, -40) ∧
    bc_cp201t_get_temperature_celsius (with_raw_code 16128) .BC_MODULE_SENSOR_CHANNEL_A 3.3 c =
      some (true, 125) := by
  have hlo : to_int16 0xFE70 = -400 := by decide
  have hhi : to_int16 0x04E2 = 1250 := by decide
  refine ⟨?_, ⟨table_entry_23, hlo⟩, ⟨table_entry_771, hhi⟩, ?_, ?_⟩
  · intro t h
    obtain ⟨s, e, -, he, hv, ht⟩ := get_temperature_some_true g channel v c t h
    obtain ⟨h1, h2⟩ := table_code_range _ e he hv
    obtain ⟨q1, q2⟩ := table_celsius_range _ e he hv
    exact ⟨to_int16 e, h1, h2, ht, by rw [ht]; exact q1, by rw [ht]; exact q2⟩
  · have h := get_temperature_reference 64063 0xFE70 c (by decide) table_entry_23 (by decide)
    simp only [Nat.cast_ofNat] at h
    have hc : fixed_to_celsius (-400) = -40 := by decide!
    rw [h, hlo, hc]
  · have h := get_temperature_reference 16128 0x04E2 c (by decide) table_entry_771 (by decide)
    simp only [Nat.cast_ofNat] at h
    have hc : fixed_to_celsius 1250 = 125 := by decide!
    rw [h, hhi, hc]

/-- C18, as the table has it, at the raw code 64063 with the reference voltage: the call
succeeds with -40, which lies within the bounds. -/
theorem temperature_code_range_witness :
    bc_cp201t_get_temperature_celsius (with_raw_code 64063) .BC_MODULE_SENSOR_CHANNEL_A 3.3 0 =
      some (true, -40) ∧
    ∃ code : Int, -400 ≤ code ∧ code ≤ 1250 ∧ (-40 : ℚ) = fixed_to_celsius code ∧
      (-40 : ℚ) ≤ -40 ∧ (-40 : ℚ) ≤ 125 :=
  ⟨(temperature_code_range (with_raw_code 64063) .BC_MODULE_SENSOR_CHANNEL_A 3.3 0).2.2.2.1,
   (temperature_code_range (with_raw_code 64063) .BC_MODULE_SENSOR_CHANNEL_A 3.3 0).1 (-40)
     (temperature_code_range (with_raw_code 64063) .BC_MODULE_SENSOR_CHANNEL_A 3.3 0).2.2.2.1⟩

/-- C18 as stated fails: index 772 does not hold 0x04E2, it holds the sentinel. -/
theorem table_entry_772_not_maximum :
    ¬ (_thermistor_conversion_table[772]? = some 0x04E2) := by
  rw [table_entry_772]
  decide

/-- C19: for 16-bit rescaled codes `s1 ≤ s2` whose lookups are both valid, the signed
temperature code obtained for `s2` is at most the one obtained for `s1`; hence of two
successful calls the one with the larger rescaled code does not report the higher
temperature. -/
theorem temperature_antitone (s1 s2 : Nat) (h12 : s1 ≤ s2) (h2 : s2 < 65536) :
    (∀ e1 e2, _thermistor_conversion_table[(0xFFFF - s1) >>> 6]? = some e1 →
      _thermistor_conversion_table[(0xFFFF - s2) >>> 6]? = some e2 →
      e1 ≠ 0x7FFF → e2 ≠ 0x7FFF → to_int16 e2 ≤ to_int16 e1) ∧
    (∀ (g1 g2 : Instances) (ch1 ch2 : bc_module_sensor_channel_t) (v1 v2 c1 c2 t1 t2 : ℚ),
      rescale ((g1.get ch1).thermistor_data % 65536).toNat v1 = some s1 →
      rescale ((g2.get ch2).thermistor_data % 65536).toNat v2 = some s2 →
      bc_cp201t_get_temperature_celsius g1 ch1 v1 c1 = some (true, t1) →
      bc_cp201t_get_temperature_celsius g2 ch2 v2 c2 = some (true, t2) →
      t2 ≤ t1) := by
  have key : ∀ e1 e2, _thermistor_conversion_table[(0xFFFF - s1) >>> 6]? = some e1 →
      _thermistor_conversion_table[(0xFFFF - s2) >>> 6]? = some e2 →
      e1 ≠ 0x7FFF → e2 ≠ 0x7FFF → to_int16 e2 ≤ to_int16 e1 := by
    intro e1 e2 he1 he2 hv1 hv2
    have hle : (0xFFFF - s2) >>> 6 ≤ (0xFFFF - s1) >>> 6 := by
      simp only [Nat.shiftRight_eq_div_pow]
      omega
    rcases Nat.lt_or_eq_of_le hle with hlt | heq
    · obtain ⟨hl1, rfl⟩ := List.getElem?_eq_some.mp he1
      obtain ⟨hl2, rfl⟩ := List.getElem?_eq_some.mp he2
      exact List.pairwise_iff_getElem.mp table_pairwise _ _ hl2 hl1 hlt hv2 hv1
    · rw [heq] at he2
      have hee : e2 = e1 := Option.some.inj (he2.symm.trans he1)
      rw [hee]
  refine ⟨key, ?_⟩
  intro g1 g2 ch1 ch2 v1 v2 c1 c2 t1 t2 hs1 hs2 hg1 hg2
  obtain ⟨s1', e1, hs1', he1, hv1, ht1⟩ := get_temperature_some_true g1 ch1 v1 c1 t1 hg1
  obtain ⟨s2', e2, hs2', he2, hv2, ht2⟩ := get_temperature_some_true g2 ch2 v2 c2 t2 hg2
  have e1s : s1' = s1 := Option.some.inj (hs1'.symm.trans hs1)
  have e2s : s2' = s2 := Option.some.inj (hs2'.symm.trans hs2)
  subst e1s e2s
  rw [ht1, ht2]
  have hle : (0xFFFF - s2') >>> 6 ≤ (0xFFFF - s1') >>> 6 := by
    simp only [Nat.shiftRight_eq_div_pow]
    omega
  rcases Nat.lt_or_eq_of_le hle with hlt | heq
  · obtain ⟨hl1, rfl⟩ := List.getElem?_eq_some.mp he1
    obtain ⟨hl2, rfl⟩ := List.getElem?_eq_some.mp he2
    exact List.pairwise_iff_getElem.mp table_pairwise_celsius _ _ hl2 hl1 hlt hv2 hv1
  · rw [heq] at he2
    have hee : e2 = e1 := Option.some.inj (he2.symm.trans he1)
    rw [hee]

/-- C19 at the rescaled codes 52700 (index 200, entry 0x0060 = 96) and 57971 (index 118,
entry 0xFFC8 = -56). -/
theorem temperature_antitone_witness :
    (52700 ≤ 57971 ∧ 57971 < 65536) ∧ to_int16 0xFFC8 ≤ to_int16 0x0060 :=
  ⟨⟨by decide, by decide⟩,
   (temperature_antitone 52700 57971 (by decide) (by decide)).1 0x0060 0xFFC8
     table_entry_200 table_entry_118 (by decide) (by decide)⟩

end CP201T
